import Mathlib

/-!
Verification of the tennis-shopping purchase-flow bot.

The repository has two variants of one browser-automation script:
* `src/tools/tennis_shopping_bot.py` — the programmatic (Dify tool) variant:
  `_invoke`, `_extract_parameters`, `_execute_purchase_flow`;
* `src/test2/tools/tennis_shopping_bot.py` — the interactive variant:
  `dify_headless_purchase_flow`.

The shallow embedding below models the browser page as an environment `Env`:
each Playwright call on a selector either succeeds or raises
`PlaywrightTimeoutError`, as dictated by `Env.ok op selector`; the search
step's outcome on the n-th attempt is `Env.search n`; `Env.gotoExc` injects an
unexpected (non-timeout) exception at `page.goto`, the one unprotected call
under the outermost `try`.  The flow functions return the terminal message
string together with the trace of browser actions performed (`List BAction`),
so that properties such as "no browser action is performed", "the browser is
closed on this exit path" or "search is attempted at most 3 times" are
statements about the returned trace.  A link's `inner_text()` result is the
data `Link.title` (`none` models the call raising, which the source skips).
-/

/-- One search-result link; `title` is the `inner_text()` of the link,
`none` when reading it raises (the source then skips the link). -/
structure Link where
  title : Option String
  deriving Repr, DecidableEq

/-- Outcome of one product-search attempt: the `wait_for_selector` times out,
or result links are found by `query_selector_all`. -/
inductive SearchOutcome where
  | timeout
  | results (links : List Link)
  deriving Repr, DecidableEq

/-- The page environment driving the purchase flow. `ok op sel` tells whether
the Playwright call `op` ("click", "fill", "wait", "select") on selector `sel`
succeeds; `search n` is the n-th search attempt's outcome; `gotoExc` injects
an unexpected exception at `page.goto`; `confirmationText` is the inner text
of the order-confirmation element when present; `excMsg sel` is the
description of the exception raised by a failing unprotected call on `sel`
(the interactive variant has unprotected fills whose exceptions escape to the
outermost handler). -/
structure Env where
  gotoExc : Option String
  search : Nat → SearchOutcome
  ok : String → String → Bool
  confirmationText : String
  excMsg : String → String := fun _ => ("")

/-- A browser action performed by the flow, in order. `clickResult i` is a
click on the i-th (0-based) search-result link. -/
inductive BAction where
  | goto (url : String)
  | fill (sel : String) (value : String)
  | press (sel : String) (key : String)
  | waitFor (sel : String)
  | queryAll (sel : String)
  | clickResult (idx : Nat)
  | click (sel : String)
  | selectOption (sel : String) (value : String)
  | innerTextOf (sel : String)
  | close
  deriving Repr, DecidableEq

/-- Category-specific variant attributes (`variant_details` mapping). -/
structure VariantDetails where
  size : Option String := none
  string_type : Option String := none
  string_name : Option String := none
  string_tension : Option String := none
  color : Option String := none
  option1 : Option String := none
  deriving Repr, DecidableEq

/-- The raw `tool_parameters` mapping handed to `_invoke`; `none` models an
absent key, `some s` a string value. -/
structure ToolParams where
  website_url : Option String := none
  item_name : Option String := none
  category : Option String := none
  variant_details : VariantDetails := {}
  first_name : Option String := none
  last_name : Option String := none
  email : Option String := none
  phone : Option String := none
  address : Option String := none
  city : Option String := none
  state : Option String := none
  postal_code : Option String := none
  country : Option String := none
  card_number : Option String := none
  card_expiration : Option String := none
  card_cvv : Option String := none
  billing_address : Option String := none
  coupon_code : Option String := none
  shipping_option : Option String := none
  gift_wrapping_message : Option String := none
  deriving Repr, DecidableEq

/-- The `params` dict built by `_extract_parameters` (lines 60-99). -/
structure Params where
  variant_details : VariantDetails := {}
  first_name : String := ""
  last_name : String := ""
  email : String := ""
  phone : String := ""
  address : String := ""
  city : String := ""
  state : String := ""
  postal_code : String := ""
  country : String := ""
  card_number : String := ""
  card_expiration : String := ""
  card_cvv : String := ""
  billing_address : String := ""
  coupon_code : Option String := none
  shipping_option : Option String := none
  gift_wrapping_message : Option String := none
  deriving Repr, DecidableEq

/-- The structured JSON message of `create_json_message` (lines 48-51). -/
structure JsonResult where
  success : Bool
  message : String
  deriving Repr, DecidableEq

/-- A message yielded by `_invoke`: a text message or the structured result. -/
inductive Msg where
  | text (s : String)
  | json (r : JsonResult)
  deriving Repr, DecidableEq

/-- What one `_invoke` call produces: the yielded messages and the browser
actions performed. -/
structure InvokeOut where
  messages : List Msg
  actions : List BAction
  deriving Repr, DecidableEq

/-- `PRODUCT_CATEGORIES` (line 10). -/
def PRODUCT_CATEGORIES : List String := ["racquet", "garment", "shoes", "other"]

/-- `max_attempts = 3` (line 135). -/
def max_attempts : Nat := 3

/-- The search input selector used in lines 143-144. -/
def search_sel : String := "input[name=\"search\"]"

/-- The result-link selector used in lines 145, 153. -/
def product_link_sel : String := "div.product-container a.product-link"

/-- The Playwright text selector `f'text="{v}"'`. -/
def text_selector (v : String) : String := "text=\"" ++ v ++ "\""

/-- An apostrophe, used in the invalid-category message. -/
def apos : String := String.singleton (Char.ofNat 39)

/-- The message of line 28:
`f"Invalid category '{category}'. Valid categories are: {', '.join(PRODUCT_CATEGORIES)}"`. -/
def invalid_category_msg (category : String) : String :=
  ("Invalid category ") ++ apos ++ category ++ apos ++
    (". Valid categories are: ") ++ String.intercalate (", ") PRODUCT_CATEGORIES

/-- Python `str.strip()`: leading and trailing whitespace removed. -/
def pyStrip (s : String) : String :=
  ⟨((s.data.dropWhile Char.isWhitespace).reverse.dropWhile Char.isWhitespace).reverse⟩

/-- Python `str.lower()`. -/
def pyLower (s : String) : String := ⟨s.data.map Char.toLower⟩

/-- Python `str.startswith(pre)`. -/
def pyStartsWith (s pre : String) : Bool := pre.data.isPrefixOf s.data

/-- Python `int(...)` on a string of decimal digits; `none` is `ValueError`. -/
def pyToNat (s : String) : Option Nat :=
  if s.data ≠ [] ∧ s.data.all Char.isDigit then
    some (s.data.foldl (fun acc c => acc * 10 + (c.toNat - ('0').toNat)) 0)
  else none

/-- Python `int(...)` with an optional sign, as applied to the interactive
selection input (test2 line 153): `none` models `ValueError`. -/
def pyInt (s : String) : Option Int :=
  match s.data with
  | '-' :: rest => (pyToNat ⟨rest⟩).map (fun n => -(n : Int))
  | '+' :: rest => (pyToNat ⟨rest⟩).map (fun n => (n : Int))
  | _ => (pyToNat s).map (fun n => (n : Int))

/-- Python truthiness of an optional string: `None` and `""` are falsy. -/
def truthy : Option String → Bool
  | some s => !(s == "")
  | none => false

/-- Whether a link's title, stripped, equals the item name case-insensitively
(the comparison of lines 165-166 and test2 lines 127-130). -/
def titleMatches (item_name : String) (l : Link) : Bool :=
  match l.title with
  | some title => pyLower (pyStrip title) == pyLower item_name
  | none => false

/-- The exact-match scan of lines 162-170 (identical in test2 lines 123-132):
the first link whose stripped title equals the item name case-insensitively;
links whose `inner_text()` raises are skipped. -/
def findExactIdx (links : List Link) (item_name : String) : Option Nat :=
  match links with
  | [] => none
  | l :: rest =>
    match l.title with
    | some title =>
      if pyLower (pyStrip title) == pyLower item_name then some 0
      else (findExactIdx rest item_name).map (fun k => k + 1)
    | none => (findExactIdx rest item_name).map (fun k => k + 1)

/-- The field coercion of `_extract_parameters` lines 62-87: each expected
field is read from the mapping with its default and stripped. -/
def mkParams (tp : ToolParams) : Params :=
  let address := pyStrip (tp.address.getD (""))
  { variant_details := tp.variant_details
    first_name := pyStrip (tp.first_name.getD (""))
    last_name := pyStrip (tp.last_name.getD (""))
    email := pyStrip (tp.email.getD (""))
    phone := pyStrip (tp.phone.getD (""))
    address := address
    city := pyStrip (tp.city.getD (""))
    state := pyStrip (tp.state.getD (""))
    postal_code := pyStrip (tp.postal_code.getD (""))
    country := pyStrip (tp.country.getD ("United States"))
    card_number := pyStrip (tp.card_number.getD (""))
    card_expiration := pyStrip (tp.card_expiration.getD (""))
    card_cvv := pyStrip (tp.card_cvv.getD (""))
    billing_address := pyStrip (tp.billing_address.getD address)
    coupon_code := tp.coupon_code
    shipping_option := tp.shipping_option
    gift_wrapping_message := tp.gift_wrapping_message }

/-- Dictionary-style lookup `params[field]` for the required field names. -/
def paramsGet (p : Params) : String → String
  | "first_name" => p.first_name
  | "last_name" => p.last_name
  | "email" => p.email
  | "phone" => p.phone
  | "address" => p.address
  | "city" => p.city
  | "state" => p.state
  | "postal_code" => p.postal_code
  | "card_number" => p.card_number
  | "card_expiration" => p.card_expiration
  | "card_cvv" => p.card_cvv
  | _ => ""

/-- `required_fields` (lines 90-92). -/
def required_fields : List String :=
  ["first_name", "last_name", "email", "phone",
   "address", "city", "state", "postal_code",
   "card_number", "card_expiration", "card_cvv"]

/-- `missing_fields = [field for field in required_fields if not params[field]]`
(line 94). -/
def missingFields (p : Params) : List String :=
  required_fields.filter (fun field => paramsGet p field == "")

/-- `_extract_parameters` (lines 60-99): builds the params and reports the
missing required fields as one combined error. -/
def extract_parameters (tp : ToolParams) : Except String Params :=
  let p := mkParams tp
  let missing_fields := missingFields p
  if missing_fields.isEmpty then Except.ok p
  else Except.error (("Missing required fields: ") ++ String.intercalate (", ") missing_fields)

/-- One step of the search loop and its result: a fatal early return (browser
closed) or a selected result index. -/
inductive SearchStep where
  | exit (msg : String)
  | selected (idx : Nat)
  deriving Repr, DecidableEq

/-- The product-search loop of lines 133-182: up to `max_attempts` attempts;
a timed-out wait or an empty link list on the last allowed attempt is fatal;
otherwise an exact title match is clicked, else the first result.  `attempts`
counts the attempts already made, `fuel` the remaining loop iterations
(`max_attempts - attempts` at the call site); the `fuel = 0` case is the
post-loop `if not product_selected` return of lines 180-182. -/
def searchLoop (env : Env) (item_name : String) : Nat → Nat → SearchStep × List BAction
  | _, 0 => (SearchStep.exit ("Error: Unable to select a product"), [BAction.close])
  | attempts, fuel + 1 =>
    let a := attempts + 1
    let base := [BAction.fill search_sel item_name,
                 BAction.press search_sel ("Enter"),
                 BAction.waitFor product_link_sel]
    match env.search a with
    | SearchOutcome.timeout =>
      if a ≥ max_attempts then
        (SearchStep.exit ("Error: Product search failed after multiple attempts"),
         base ++ [BAction.close])
      else
        let r := searchLoop env item_name a fuel
        (r.1, base ++ r.2)
    | SearchOutcome.results links =>
      let base2 := base ++ [BAction.queryAll product_link_sel]
      if links.isEmpty then
        if a ≥ max_attempts then
          (SearchStep.exit ("Error: No products found matching the search criteria"),
           base2 ++ [BAction.close])
        else
          let r := searchLoop env item_name a fuel
          (r.1, base2 ++ r.2)
      else
        match findExactIdx links item_name with
        | some i => (SearchStep.selected i, base2 ++ [BAction.clickResult i])
        | none => (SearchStep.selected 0, base2 ++ [BAction.clickResult 0])

/-- The category-dependent variant-selection attempts of lines 184-222; every
sub-step is best-effort (its failure only logs), so the attempted actions do
not depend on the environment. -/
def variantActs (category : String) (vd : VariantDetails) : List BAction :=
  if category == "racquet" then
    (if truthy vd.size then [BAction.click (text_selector (vd.size.getD ("")))] else [])
    ++ (if truthy vd.string_type then [BAction.click (text_selector (vd.string_type.getD ("")))] else [])
    ++ (if truthy vd.string_tension then
          [BAction.fill ("input[name=\"string_tension\"]") (vd.string_tension.getD (""))] else [])
  else if category == "garment" || category == "shoes" then
    (if truthy vd.size then [BAction.click (text_selector (vd.size.getD ("")))] else [])
    ++ (if truthy vd.color then [BAction.click (text_selector (vd.color.getD ("")))] else [])
  else if truthy vd.option1 then
    [BAction.fill ("input[name=\"customOption\"]") (vd.option1.getD (""))]
  else []

/-- The add-to-cart step of lines 224-234: primary button, one text-based
alternate, fatal when both fail. -/
def addToCartStep (env : Env) : Option String × List BAction :=
  if env.ok ("click") ("#addToCartButton") then
    (none, [BAction.click ("#addToCartButton")])
  else if env.ok ("click") ("button:has-text(\"Add to Cart\")") then
    (none, [BAction.click ("#addToCartButton"), BAction.click ("button:has-text(\"Add to Cart\")")])
  else
    (some ("Error: Add to Cart button not found"),
     [BAction.click ("#addToCartButton"), BAction.click ("button:has-text(\"Add to Cart\")"),
      BAction.close])

/-- The pop-up dismissal of lines 236-241: best-effort wait then click. -/
def popupActs (env : Env) : List BAction :=
  if env.ok ("wait") ("button.close-popup") then
    [BAction.waitFor ("button.close-popup"), BAction.click ("button.close-popup")]
  else [BAction.waitFor ("button.close-popup")]

/-- The view-cart navigation of lines 246-254: wait for and click the
ViewCart link, falling back to a text-based cart link; skipped silently when
nothing matches. -/
def viewCartActs (env : Env) : List BAction :=
  if env.ok ("wait") ("a[href*=\"ViewCart\"]") then
    if env.ok ("click") ("a[href*=\"ViewCart\"]") then
      [BAction.waitFor ("a[href*=\"ViewCart\"]"), BAction.click ("a[href*=\"ViewCart\"]")]
    else
      [BAction.waitFor ("a[href*=\"ViewCart\"]"), BAction.click ("a[href*=\"ViewCart\"]"),
       BAction.click ("a:has-text(\"Cart\")")]
  else
    [BAction.waitFor ("a[href*=\"ViewCart\"]"), BAction.click ("a:has-text(\"Cart\")")]

/-- The checkout navigation of lines 256-265: wait for and click the Checkout
link, falling back to a text-based button; exhausting both is fatal. -/
def checkoutStep (env : Env) : Option String × List BAction :=
  if env.ok ("wait") ("a[href*=\"Checkout\"]") then
    if env.ok ("click") ("a[href*=\"Checkout\"]") then
      (none, [BAction.waitFor ("a[href*=\"Checkout\"]"), BAction.click ("a[href*=\"Checkout\"]")])
    else if env.ok ("click") ("button:has-text(\"Checkout\")") then
      (none, [BAction.waitFor ("a[href*=\"Checkout\"]"), BAction.click ("a[href*=\"Checkout\"]"),
              BAction.click ("button:has-text(\"Checkout\")")])
    else
      (some ("Error: Checkout button not found"),
       [BAction.waitFor ("a[href*=\"Checkout\"]"), BAction.click ("a[href*=\"Checkout\"]"),
        BAction.click ("button:has-text(\"Checkout\")"), BAction.close])
  else if env.ok ("click") ("button:has-text(\"Checkout\")") then
    (none, [BAction.waitFor ("a[href*=\"Checkout\"]"), BAction.click ("button:has-text(\"Checkout\")")])
  else
    (some ("Error: Checkout button not found"),
     [BAction.waitFor ("a[href*=\"Checkout\"]"), BAction.click ("button:has-text(\"Checkout\")"),
      BAction.close])

/-- A three-selector fill fallback chain (the shipping/payment field pattern,
e.g. lines 276-282): stops at the first selector that works; the returned
flag is false when the last alternate also raises (that exception propagates
to the enclosing section handler). -/
def fillChain3 (env : Env) (s1 s2 s3 v : String) : Bool × List BAction :=
  if env.ok ("fill") s1 then (true, [BAction.fill s1 v])
  else if env.ok ("fill") s2 then (true, [BAction.fill s1 v, BAction.fill s2 v])
  else (env.ok ("fill") s3, [BAction.fill s1 v, BAction.fill s2 v, BAction.fill s3 v])

/-- Sequential fill chains; a chain whose last alternate raises aborts the
remaining chains (the enclosing `except Exception` of lines 362-363). -/
def fillChains (env : Env) : List (String × String × String × String) → Bool × List BAction
  | [] => (true, [])
  | c :: rest =>
    let r := fillChain3 env c.1 c.2.1 c.2.2.1 c.2.2.2
    if r.1 then
      let rr := fillChains env rest
      (rr.1, r.2 ++ rr.2)
    else (false, r.2)

/-- The state-field fallback of lines 325-337: select, fill, alternate
select, alternate fill; the final failure only logs. -/
def stateActs (env : Env) (state : String) : List BAction :=
  if env.ok ("select") ("#state") then [BAction.selectOption ("#state") state]
  else if env.ok ("fill") ("#state") then
    [BAction.selectOption ("#state") state, BAction.fill ("#state") state]
  else if env.ok ("select") ("select[name=\"state\"]") then
    [BAction.selectOption ("#state") state, BAction.fill ("#state") state,
     BAction.selectOption ("select[name=\"state\"]") state]
  else
    [BAction.selectOption ("#state") state, BAction.fill ("#state") state,
     BAction.selectOption ("select[name=\"state\"]") state,
     BAction.fill ("input[name=\"state\"]") state]

/-- The postal-code fallback of lines 339-351; the final failure only logs. -/
def zipActs (env : Env) (postal_code : String) : List BAction :=
  if env.ok ("fill") ("#zip") then [BAction.fill ("#zip") postal_code]
  else if env.ok ("fill") ("input[name=\"zip\"]") then
    [BAction.fill ("#zip") postal_code, BAction.fill ("input[name=\"zip\"]") postal_code]
  else if env.ok ("fill") ("#postal_code") then
    [BAction.fill ("#zip") postal_code, BAction.fill ("input[name=\"zip\"]") postal_code,
     BAction.fill ("#postal_code") postal_code]
  else
    [BAction.fill ("#zip") postal_code, BAction.fill ("input[name=\"zip\"]") postal_code,
     BAction.fill ("#postal_code") postal_code, BAction.fill ("input[name=\"postal_code\"]") postal_code]

/-- The country-field fallback of lines 353-360; the final failure only logs. -/
def countryActs (env : Env) (country : String) : List BAction :=
  if env.ok ("select") ("#country") then [BAction.selectOption ("#country") country]
  else
    [BAction.selectOption ("#country") country,
     BAction.selectOption ("select[name=\"country\"]") country]

/-- The shipping-details section of lines 272-363: six three-selector fill
chains whose last-alternate failure aborts the rest of the section, then the
absorbed state, postal-code and country fallbacks. -/
def shippingActs (env : Env) (p : Params) : List BAction :=
  let chains :=
    [(("#firstName"), ("input[name=\"firstName\"]"), ("[placeholder=\"First Name\"]"), p.first_name),
     (("#lastName"), ("input[name=\"lastName\"]"), ("[placeholder=\"Last Name\"]"), p.last_name),
     (("#email"), ("input[name=\"email\"]"), ("[placeholder=\"Email\"]"), p.email),
     (("#phone"), ("input[name=\"phone\"]"), ("[placeholder=\"Phone\"]"), p.phone),
     (("#address"), ("input[name=\"address\"]"), ("[placeholder=\"Address\"]"), p.address),
     (("#city"), ("input[name=\"city\"]"), ("[placeholder=\"City\"]"), p.city)]
  let r := fillChains env chains
  if r.1 then r.2 ++ stateActs env p.state ++ zipActs env p.postal_code ++ countryActs env p.country
  else r.2

/-- The coupon application of lines 366-379: primary fill and apply click,
one alternate pair, all failures absorbed. -/
def couponActs (env : Env) (coupon_code : String) : List BAction :=
  let alt :=
    if env.ok ("fill") ("input[name=\"couponCode\"]") then
      [BAction.fill ("input[name=\"couponCode\"]") coupon_code,
       BAction.click ("button:has-text(\"Apply\")")]
    else [BAction.fill ("input[name=\"couponCode\"]") coupon_code]
  if env.ok ("fill") ("#couponCode") then
    if env.ok ("click") ("#applyCoupon") then
      [BAction.fill ("#couponCode") coupon_code, BAction.click ("#applyCoupon")]
    else
      [BAction.fill ("#couponCode") coupon_code, BAction.click ("#applyCoupon")] ++ alt
  else [BAction.fill ("#couponCode") coupon_code] ++ alt

/-- The gift-wrapping step of lines 390-396: checkbox click then message
fill, the fill skipped when the click raises; failures absorbed. -/
def giftWrapActs (env : Env) (message : String) : List BAction :=
  if env.ok ("click") ("input[name=\"giftWrap\"]") then
    [BAction.click ("input[name=\"giftWrap\"]"),
     BAction.fill ("textarea[name=\"giftMessage\"]") message]
  else [BAction.click ("input[name=\"giftWrap\"]")]

/-- A click fallback chain where every failure is absorbed (the
proceed-to-payment pattern of lines 400-412). -/
def clickChain (env : Env) : List String → List BAction
  | [] => []
  | s :: rest =>
    if env.ok ("click") s then [BAction.click s]
    else BAction.click s :: clickChain env rest

/-- The separate month/year expiration fallback of lines 434-441. -/
def expSplitActs (env : Env) (card_expiration : String) : List BAction :=
  match card_expiration.splitOn ("/") with
  | [m, y] =>
    if env.ok ("fill") ("#expMonth") then
      [BAction.fill ("#expMonth") (pyStrip m), BAction.fill ("#expYear") (pyStrip y)]
    else [BAction.fill ("#expMonth") (pyStrip m)]
  | _ => []

/-- The card-expiration fill of lines 425-441: three selectors, then the
split month/year fallback; fully absorbed. -/
def cardExpActs (env : Env) (card_expiration : String) : List BAction :=
  if env.ok ("fill") ("#cardExp") then [BAction.fill ("#cardExp") card_expiration]
  else if env.ok ("fill") ("input[name=\"cardExp\"]") then
    [BAction.fill ("#cardExp") card_expiration, BAction.fill ("input[name=\"cardExp\"]") card_expiration]
  else if env.ok ("fill") ("[placeholder=\"MM/YY\"]") then
    [BAction.fill ("#cardExp") card_expiration, BAction.fill ("input[name=\"cardExp\"]") card_expiration,
     BAction.fill ("[placeholder=\"MM/YY\"]") card_expiration]
  else
    [BAction.fill ("#cardExp") card_expiration, BAction.fill ("input[name=\"cardExp\"]") card_expiration,
     BAction.fill ("[placeholder=\"MM/YY\"]") card_expiration] ++ expSplitActs env card_expiration

/-- The billing-address fill of lines 451-459, only when the billing address
is non-empty and differs from the shipping address; absorbed. -/
def billingActs (env : Env) (p : Params) : List BAction :=
  if p.billing_address ≠ "" ∧ p.billing_address ≠ p.address then
    if env.ok ("fill") ("#billingAddress") then
      [BAction.fill ("#billingAddress") p.billing_address]
    else
      [BAction.fill ("#billingAddress") p.billing_address,
       BAction.fill ("input[name=\"billingAddress\"]") p.billing_address]
  else []

/-- The payment-details section of lines 414-462: card number chain (its
last-alternate failure aborts the section), expiration with split fallback,
CVV chain (aborts the billing fill), billing address. -/
def paymentActs (env : Env) (p : Params) : List BAction :=
  let r1 := fillChain3 env ("#cardNumber") ("input[name=\"cardNumber\"]")
              ("[placeholder=\"Card Number\"]") p.card_number
  if r1.1 then
    let e := cardExpActs env p.card_expiration
    let r3 := fillChain3 env ("#cardCVV") ("input[name=\"cardCVV\"]") ("[placeholder=\"CVV\"]") p.card_cvv
    if r3.1 then r1.2 ++ e ++ r3.2 ++ billingActs env p
    else r1.2 ++ e ++ r3.2
  else r1.2

/-- The place-order step of lines 464-481: primary button plus two text-based
alternates; exhausting all three is fatal. -/
def placeOrderStep (env : Env) : Option String × List BAction :=
  if env.ok ("click") ("#placeOrderButton") then
    (none, [BAction.click ("#placeOrderButton")])
  else if env.ok ("click") ("button:has-text(\"Place Order\")") then
    (none, [BAction.click ("#placeOrderButton"), BAction.click ("button:has-text(\"Place Order\")")])
  else if env.ok ("click") ("button:has-text(\"Complete Purchase\")") then
    (none, [BAction.click ("#placeOrderButton"), BAction.click ("button:has-text(\"Place Order\")"),
            BAction.click ("button:has-text(\"Complete Purchase\")")])
  else
    (some ("Error: Place order button not found"),
     [BAction.click ("#placeOrderButton"), BAction.click ("button:has-text(\"Place Order\")"),
      BAction.click ("button:has-text(\"Complete Purchase\")"), BAction.close])

/-- The confirmation detection of lines 483-507: confirmation element, then
two text fallbacks, then the ambiguous non-error message; the browser is
closed on every branch. -/
def confirmationStep (env : Env) : String × List BAction :=
  if env.ok ("wait") (".order-confirmation") then
    (("Purchase flow executed successfully: ") ++ env.confirmationText,
     [BAction.waitFor (".order-confirmation"), BAction.innerTextOf (".order-confirmation"),
      BAction.close])
  else if env.ok ("wait") ("text=\"Thank you for your order\"") then
    (("Purchase flow executed successfully: Order placed successfully"),
     [BAction.waitFor (".order-confirmation"), BAction.waitFor ("text=\"Thank you for your order\""),
      BAction.close])
  else if env.ok ("wait") ("text=\"Order Confirmation\"") then
    (("Purchase flow executed successfully: Order confirmed"),
     [BAction.waitFor (".order-confirmation"), BAction.waitFor ("text=\"Thank you for your order\""),
      BAction.waitFor ("text=\"Order Confirmation\""), BAction.close])
  else
    (("Order may have been placed, but confirmation was not detected"),
     [BAction.waitFor (".order-confirmation"), BAction.waitFor ("text=\"Thank you for your order\""),
      BAction.waitFor ("text=\"Order Confirmation\""), BAction.close])

/-- Everything after a product is selected: variant selection, add to cart,
pop-up, cart/checkout, shipping, optional extras, payment, place order,
confirmation (lines 184-507). -/
def postSelection (env : Env) (category : String) (p : Params) : String × List BAction :=
  let va := variantActs category p.variant_details
  let atc := addToCartStep env
  match atc.1 with
  | some msg => (msg, va ++ atc.2)
  | none =>
    let pu := popupActs env
    let vc := viewCartActs env
    let co := checkoutStep env
    match co.1 with
    | some msg => (msg, va ++ atc.2 ++ pu ++ vc ++ co.2)
    | none =>
      let sh := shippingActs env p
      let cp := if truthy p.coupon_code then couponActs env (p.coupon_code.getD ("")) else []
      let so := if truthy p.shipping_option then
                  [BAction.click (text_selector (p.shipping_option.getD ("")))] else []
      let gw := if truthy p.gift_wrapping_message then
                  giftWrapActs env (p.gift_wrapping_message.getD ("")) else []
      let pp := clickChain env [("#continueToPayment"), ("button:has-text(\"Continue to Payment\")"),
                                ("button:has-text(\"Next\")")]
      let pay := paymentActs env p
      let po := placeOrderStep env
      match po.1 with
      | some msg => (msg, va ++ atc.2 ++ pu ++ vc ++ co.2 ++ sh ++ cp ++ so ++ gw ++ pp ++ pay ++ po.2)
      | none =>
        let cf := confirmationStep env
        (cf.1, va ++ atc.2 ++ pu ++ vc ++ co.2 ++ sh ++ cp ++ so ++ gw ++ pp ++ pay ++ po.2 ++ cf.2)

/-- `_execute_purchase_flow` (lines 101-511): goto, the search loop, then the
post-selection sequence.  An unexpected exception at `page.goto` propagates
to the outermost handler of lines 509-511, which returns the generic error
without closing the browser. -/
def execute_purchase_flow (env : Env) (website_url item_name category : String) (p : Params) :
    String × List BAction :=
  match env.gotoExc with
  | some m => (("Error: ") ++ m, [BAction.goto website_url])
  | none =>
    let sr := searchLoop env item_name 0 max_attempts
    match sr.1 with
    | SearchStep.exit msg => (msg, BAction.goto website_url :: sr.2)
    | SearchStep.selected _ =>
      let r := postSelection env category p
      (r.1, BAction.goto website_url :: (sr.2 ++ r.2))

/-- The structured result of lines 48-51:
`{"success": not result.startswith("Error:"), "message": result}`. -/
def result_json (result : String) : JsonResult :=
  { success := !(pyStartsWith result ("Error:")), message := result }

/-- `_invoke` (lines 18-58): category validation, parameter extraction, then
the purchase flow and the structured result. -/
def invoke (env : Env) (tool_parameters : ToolParams) : InvokeOut :=
  let website_url := pyStrip (tool_parameters.website_url.getD ("https://www.tennisexpress.com/"))
  let item_name := pyStrip (pyLower (tool_parameters.item_name.getD ("")))
  let category := pyStrip (pyLower (tool_parameters.category.getD ("")))
  if category ∉ PRODUCT_CATEGORIES then
    { messages := [Msg.text (invalid_category_msg category)], actions := [] }
  else
    match extract_parameters tool_parameters with
    | Except.error e => { messages := [Msg.text e], actions := [] }
    | Except.ok params =>
      let r := execute_purchase_flow env website_url item_name category params
      { messages := [Msg.text ("Starting purchase flow..."), Msg.json (result_json r.1)],
        actions := r.2 }

/-- `get_user_input` of test2 lines 22-25: the stripped input when non-empty,
else the default. -/
def get_user_input (raw : String) (default : Option String) : Option String :=
  if raw == "" then default else some (pyStrip raw)

/-- The option lines printed by the interactive variant when no exact match
exists (test2 lines 138-146): 1-based numbering, the stripped title, or
`Product {idx+1}` when `inner_text()` raises. -/
def printedOptions (links : List Link) : List String :=
  links.enum.map (fun e =>
    let i := e.1
    match e.2.title with
    | some t => s!"{i + 1}. " ++ pyStrip t
    | none => s!"{i + 1}. Product {i + 1}")

/-- What the interactive selection step does with the operator's input. -/
inductive SelectAction where
  | selected (idx : Nat)
  | newSearch
  | invalidSelection
  | invalidInput
  deriving Repr, DecidableEq

/-- Result of one interactive product-selection step: the option lines
printed (empty when an exact match short-circuits) and the action taken. -/
structure InteractiveSelect where
  printed : List String
  action : SelectAction
  deriving Repr, DecidableEq

/-- The interactive product-selection step of test2 lines 123-162: exact
match clicked directly; otherwise the options are listed and the operator's
raw input selects a 1-based index, asks for a new search (empty input), or is
rejected (`ValueError` → invalidInput, out of range → invalidSelection). -/
def interactive_select_step (links : List Link) (item_name : String) (rawSelection : String) :
    InteractiveSelect :=
  match findExactIdx links item_name with
  | some i => { printed := [], action := SelectAction.selected i }
  | none =>
    let printed := printedOptions links
    let selection := get_user_input rawSelection none
    if !(truthy selection) then { printed := printed, action := SelectAction.newSearch }
    else
      match pyInt (selection.getD ("")) with
      | none => { printed := printed, action := SelectAction.invalidInput }
      | some n =>
        let selection_index : Int := n - 1
        if selection_index < 0 ∨ selection_index ≥ (links.length : Int) then
          { printed := printed, action := SelectAction.invalidSelection }
        else { printed := printed, action := SelectAction.selected selection_index.toNat }

/-- The interactive variant-selection stage of test2 lines 164-188: for
"racquet" it clicks size and string type and fills the tension; for
"garment"/"shoes" it clicks only the size label; for other categories it
fills the custom option when supplied.  Every failure only logs. -/
def interactive_variant_actions (category : String) (vd : VariantDetails) : List BAction :=
  if category == "racquet" then
    [BAction.click (text_selector (vd.size.getD (""))),
     BAction.click (text_selector (vd.string_type.getD (""))),
     BAction.fill ("input[name=\"string_tension\"]") (vd.string_tension.getD (""))]
  else if category == "garment" || category == "shoes" then
    [BAction.click (text_selector (vd.size.getD ("")))]
  else if truthy vd.option1 then
    [BAction.fill ("input[name=\"customOption\"]") (vd.option1.getD (""))]
  else []

/-- The fill-the-search-box action predicate (a search attempt's first
browser action, line 143). -/
def isSearchFill : BAction → Bool
  | BAction.fill s _ => s == search_sel
  | _ => false

/-- Actions that belong to the search phase of the flow (goto, search-box
fill and press, waiting for and querying result links, close). -/
def searchPhaseAction : BAction → Bool
  | BAction.goto _ => true
  | BAction.fill s _ => s == search_sel
  | BAction.press _ _ => true
  | BAction.waitFor s => s == product_link_sel
  | BAction.queryAll _ => true
  | BAction.close => true
  | _ => false

/-- A failed search attempt: the wait timed out or no links were found. -/
def searchFailed (o : SearchOutcome) : Prop :=
  o = SearchOutcome.timeout ∨ o = SearchOutcome.results []

/-- A page environment on which every selector times out and every search
attempt fails. -/
def env0 : Env where
  gotoExc := none
  search := fun _ => SearchOutcome.timeout
  ok := fun _ _ => false
  confirmationText := ""

/-- A page environment on which `page.goto` raises an unexpected exception. -/
def env_exc : Env where
  gotoExc := some ("boom")
  search := fun _ => SearchOutcome.timeout
  ok := fun _ _ => false
  confirmationText := ""

/-- A page environment on which everything succeeds except confirmation
detection: all three confirmation waits time out. -/
def envC8 : Env where
  gotoExc := none
  search := fun _ => SearchOutcome.results [{ title := some ("ball") }]
  ok := fun op s => !(op == "wait" && (s == ".order-confirmation" ||
    s == "text=\"Thank you for your order\"" || s == "text=\"Order Confirmation\""))
  confirmationText := ""

/-- An input mapping with only a valid category: every required field is
missing. -/
def tpC1 : ToolParams := { category := some ("racquet"), first_name := some ("A") }

/-- An input mapping whose category does not normalize to a valid one. -/
def tpC2 : ToolParams := { category := some ("Ball ") }

/-- A fully populated input mapping with a valid category. -/
def tpFull : ToolParams :=
  { category := some ("other"), item_name := some ("ball"),
    first_name := some ("Ann"), last_name := some ("Lee"), email := some ("a@b.c"),
    phone := some ("555"), address := some ("1 Main St"), city := some ("Springfield"),
    state := some ("IL"), postal_code := some ("62701"), card_number := some ("4111111111111111"),
    card_expiration := some ("11/26"), card_cvv := some ("123") }

/-- As `tpFull` but with no item name supplied. -/
def tpBlankItem : ToolParams :=
  { category := some ("other"),
    first_name := some ("Ann"), last_name := some ("Lee"), email := some ("a@b.c"),
    phone := some ("555"), address := some ("1 Main St"), city := some ("Springfield"),
    state := some ("IL"), postal_code := some ("62701"), card_number := some ("4111111111111111"),
    card_expiration := some ("11/26"), card_cvv := some ("123") }

/-- Search results whose second link is the exact match. -/
def links5 : List Link := [{ title := some ("Wilson Pro") }, { title := some (" Ball ") }]

/-- A page environment whose search yields `links5`. -/
def env5 : Env where
  gotoExc := none
  search := fun _ => SearchOutcome.results links5
  ok := fun _ _ => false
  confirmationText := ""

/-- Search results none of which matches the item name "ball". -/
def links6 : List Link := [{ title := some ("Wilson Pro") }, { title := none }]

/-- A page environment whose search yields `links6`. -/
def env6 : Env where
  gotoExc := none
  search := fun _ => SearchOutcome.results links6
  ok := fun _ _ => false
  confirmationText := ""

/-- Garment/shoes variant details carrying both a size and a color. -/
def vdC9 : VariantDetails := { size := some ("9"), color := some ("red") }

/-- How the interactive variant's browser phase exits: an explicit `return`
statement inside the `with` block, or an uncaught exception that the
outermost handler of test2 lines 291-293 turns into `f"Error: {e}"`. -/
inductive IOutcome where
  | returned (msg : String)
  | raised (msg : String)
  deriving Repr, DecidableEq

/-- The string the interactive flow finally returns for an outcome. -/
def IOutcome.message : IOutcome → String
  | IOutcome.returned m => m
  | IOutcome.raised m => ("Error: ") ++ m

/-- Result of the interactive, operator-driven search loop within a bounded
number of modelled iterations: a selected result index, or the loop still
running when the bound is reached (the loop of test2 lines 107-162 is
unbounded and has no exit of its own). -/
inductive ISearchStep where
  | selected (idx : Nat)
  | running
  deriving Repr, DecidableEq

/-- A sequence of unprotected `page.fill` calls (test2 lines 217-222, 227 and
266-270): the first one that raises aborts the whole flow through the
outermost handler, so later fills are not attempted and the browser is not
closed. -/
def unprotectedFills (env : Env) : List (String × String) → Option String × List BAction
  | [] => (none, [])
  | (sel, v) :: rest =>
    if env.ok ("fill") sel then
      let r := unprotectedFills env rest
      (r.1, BAction.fill sel v :: r.2)
    else (some (env.excMsg sel), [BAction.fill sel v])

/-- The interactive state-field step of test2 lines 223-226: `select_option`
with a fill fallback; the fallback fill is unprotected, so its exception
escapes. -/
def interactiveStateStep (env : Env) (state : String) : Option String × List BAction :=
  if env.ok ("select") ("#state") then (none, [BAction.selectOption ("#state") state])
  else if env.ok ("fill") ("#state") then
    (none, [BAction.selectOption ("#state") state, BAction.fill ("#state") state])
  else
    (some (env.excMsg ("#state")),
     [BAction.selectOption ("#state") state, BAction.fill ("#state") state])

/-- The interactive cart/checkout navigation of test2 lines 206-214: one try
block with four calls; any timeout closes the browser and returns the
checkout-navigation error. -/
def interactiveCartCheckoutStep (env : Env) : Option String × List BAction :=
  if env.ok ("wait") ("a[href*=\"ViewCart\"]") then
    if env.ok ("click") ("a[href*=\"ViewCart\"]") then
      if env.ok ("wait") ("a[href*=\"Checkout\"]") then
        if env.ok ("click") ("a[href*=\"Checkout\"]") then
          (none,
           [BAction.waitFor ("a[href*=\"ViewCart\"]"), BAction.click ("a[href*=\"ViewCart\"]"),
            BAction.waitFor ("a[href*=\"Checkout\"]"), BAction.click ("a[href*=\"Checkout\"]")])
        else
          (some ("Error: Checkout Navigation Failed"),
           [BAction.waitFor ("a[href*=\"ViewCart\"]"), BAction.click ("a[href*=\"ViewCart\"]"),
            BAction.waitFor ("a[href*=\"Checkout\"]"), BAction.click ("a[href*=\"Checkout\"]"),
            BAction.close])
      else
        (some ("Error: Checkout Navigation Failed"),
         [BAction.waitFor ("a[href*=\"ViewCart\"]"), BAction.click ("a[href*=\"ViewCart\"]"),
          BAction.waitFor ("a[href*=\"Checkout\"]"), BAction.close])
    else
      (some ("Error: Checkout Navigation Failed"),
       [BAction.waitFor ("a[href*=\"ViewCart\"]"), BAction.click ("a[href*=\"ViewCart\"]"),
        BAction.close])
  else
    (some ("Error: Checkout Navigation Failed"),
     [BAction.waitFor ("a[href*=\"ViewCart\"]"), BAction.close])

/-- The interactive coupon step of test2 lines 234-240: fill, apply click and
a wait for the success banner, all inside one absorbed try block; later calls
are skipped once one fails. -/
def interactiveCouponActs (env : Env) (coupon_code : String) : List BAction :=
  if env.ok ("fill") ("#couponCode") then
    if env.ok ("click") ("#applyCoupon") then
      [BAction.fill ("#couponCode") coupon_code, BAction.click ("#applyCoupon"),
       BAction.waitFor (".coupon-success")]
    else [BAction.fill ("#couponCode") coupon_code, BAction.click ("#applyCoupon")]
  else [BAction.fill ("#couponCode") coupon_code]

/-- The interactive confirmation wait of test2 lines 281-286: best-effort;
its timeout only logs, it is not an exit. -/
def interactiveConfirmActs (env : Env) : List BAction :=
  if env.ok ("wait") (".order-confirmation") then
    [BAction.waitFor (".order-confirmation"), BAction.innerTextOf (".order-confirmation")]
  else [BAction.waitFor (".order-confirmation")]

/-- Everything after a product is selected in the interactive variant (test2
lines 164-289): variant clicks, add to cart (fatal, with close), pop-up,
cart/checkout (fatal, with close), unprotected shipping fills (raising,
without close), coupon/shipping-option/gift-wrap, proceed to payment (fatal,
with close), unprotected payment fills (raising, without close), place order
(fatal, with close), best-effort confirmation, close and success message. -/
def interactivePostSelection (env : Env) (category : String) (p : Params) :
    IOutcome × List BAction :=
  let va := interactive_variant_actions category p.variant_details
  if env.ok ("click") ("#addToCartButton") then
    let a1 := va ++ [BAction.click ("#addToCartButton")] ++ popupActs env
    let cc := interactiveCartCheckoutStep env
    match cc.1 with
    | some msg => (IOutcome.returned msg, a1 ++ cc.2)
    | none =>
      let a2 := a1 ++ cc.2
      let sh := unprotectedFills env
        [(("#firstName"), p.first_name), (("#lastName"), p.last_name), (("#email"), p.email),
         (("#phone"), p.phone), (("#address"), p.address), (("#city"), p.city)]
      match sh.1 with
      | some m => (IOutcome.raised m, a2 ++ sh.2)
      | none =>
        let st := interactiveStateStep env p.state
        match st.1 with
        | some m => (IOutcome.raised m, a2 ++ sh.2 ++ st.2)
        | none =>
          let zp := unprotectedFills env [(("#zip"), p.postal_code)]
          match zp.1 with
          | some m => (IOutcome.raised m, a2 ++ sh.2 ++ st.2 ++ zp.2)
          | none =>
            let a3 := a2 ++ sh.2 ++ st.2 ++ zp.2
              ++ [BAction.selectOption ("#country") p.country]
              ++ (if truthy p.coupon_code then
                    interactiveCouponActs env (p.coupon_code.getD ("")) else [])
              ++ (if truthy p.shipping_option then
                    [BAction.click (text_selector (p.shipping_option.getD ("")))] else [])
              ++ (if truthy p.gift_wrapping_message then
                    giftWrapActs env (p.gift_wrapping_message.getD ("")) else [])
            if env.ok ("click") ("#continueToPayment") then
              let a4 := a3 ++ [BAction.click ("#continueToPayment")]
              let pay := unprotectedFills env
                [(("#cardNumber"), p.card_number), (("#cardExp"), p.card_expiration),
                 (("#cardCVV"), p.card_cvv)]
              match pay.1 with
              | some m => (IOutcome.raised m, a4 ++ pay.2)
              | none =>
                let bl := if p.billing_address ≠ "" ∧ p.billing_address ≠ p.address then
                    unprotectedFills env [(("#billingAddress"), p.billing_address)]
                  else (none, [])
                match bl.1 with
                | some m => (IOutcome.raised m, a4 ++ pay.2 ++ bl.2)
                | none =>
                  let a5 := a4 ++ pay.2 ++ bl.2
                  if env.ok ("click") ("#placeOrderButton") then
                    (IOutcome.returned
                      ("Purchase flow executed successfully (please verify your order on the website)."),
                     a5 ++ [BAction.click ("#placeOrderButton")] ++ interactiveConfirmActs env
                       ++ [BAction.close])
                  else
                    (IOutcome.returned ("Error: Order Placement Failed"),
                     a5 ++ [BAction.click ("#placeOrderButton"), BAction.close])
            else
              (IOutcome.returned ("Error: Unable to proceed to payment"),
               a3 ++ [BAction.click ("#continueToPayment"), BAction.close])
  else
    (IOutcome.returned ("Error: Add to Cart Failed"),
     va ++ [BAction.click ("#addToCartButton"), BAction.close])

/-- The interactive search loop of test2 lines 107-162, driven by the
operator's inputs: `selInput n` is the raw selection typed on the n-th
iteration, `nameInput n` the raw replacement product name.  The loop is
unbounded in the source and has no exit of its own; `fuel` bounds the
modelled iterations, `ISearchStep.running` meaning the bound was reached
with the loop still going.  (An empty replacement name, which would crash
`None.lower()` in the source, is modelled as the empty string.) -/
def interactiveSearchLoop (env : Env) (selInput nameInput : Nat → String) :
    String → Nat → Nat → ISearchStep × List BAction
  | _, _, 0 => (ISearchStep.running, [])
  | item_name, n, fuel + 1 =>
    let a := n + 1
    let base := [BAction.fill search_sel item_name, BAction.press search_sel ("Enter"),
                 BAction.waitFor product_link_sel]
    let newItem := pyLower ((get_user_input (nameInput a) none).getD (""))
    match env.search a with
    | SearchOutcome.timeout =>
      let r := interactiveSearchLoop env selInput nameInput newItem a fuel
      (r.1, base ++ r.2)
    | SearchOutcome.results links =>
      let base2 := base ++ [BAction.queryAll product_link_sel]
      if links = [] then
        let r := interactiveSearchLoop env selInput nameInput newItem a fuel
        (r.1, base2 ++ r.2)
      else
        match findExactIdx links item_name with
        | some i => (ISearchStep.selected i, base2 ++ [BAction.clickResult i])
        | none =>
          let sel := get_user_input (selInput a) none
          if !(truthy sel) then
            let r := interactiveSearchLoop env selInput nameInput newItem a fuel
            (r.1, base2 ++ r.2)
          else
            match pyInt (sel.getD ("")) with
            | none =>
              let r := interactiveSearchLoop env selInput nameInput item_name a fuel
              (r.1, base2 ++ r.2)
            | some z =>
              if z - 1 < 0 ∨ z - 1 ≥ (links.length : Int) then
                let r := interactiveSearchLoop env selInput nameInput item_name a fuel
                (r.1, base2 ++ r.2)
              else (ISearchStep.selected (z - 1).toNat, base2 ++ [BAction.clickResult (z - 1).toNat])

/-- `dify_headless_purchase_flow`, browser phase (test2 lines 97-293): goto
(an unexpected exception there reaches the outermost handler without a
close), the operator-driven search loop, then the post-selection sequence.
The first component is `none` while the modelled loop bound is exhausted
with no exit taken. -/
def dify_headless_purchase_flow (env : Env) (selInput nameInput : Nat → String)
    (website_url item_name : String) (category : String) (p : Params) (fuel : Nat) :
    Option IOutcome × List BAction :=
  match env.gotoExc with
  | some m => (some (IOutcome.raised m), [BAction.goto website_url])
  | none =>
    let sr := interactiveSearchLoop env selInput nameInput item_name 0 fuel
    match sr.1 with
    | ISearchStep.running => (none, BAction.goto website_url :: sr.2)
    | ISearchStep.selected _ =>
      let r := interactivePostSelection env category p
      (some r.1, BAction.goto website_url :: (sr.2 ++ r.2))

/-- A page environment on which every step succeeds except the unprotected
`#firstName` shipping fill, whose exception escapes the interactive flow. -/
def envLeak : Env where
  gotoExc := none
  search := fun _ => SearchOutcome.results [{ title := some ("ball") }]
  ok := fun op s => !(op == "fill" && s == "#firstName")
  confirmationText := ""
  excMsg := fun s => ("Timeout 30000ms exceeded waiting for selector ") ++ s

theorem findExactIdx_eq_some (item : String) :
    ∀ (links : List Link) (i : Nat) (l : Link),
      links[i]? = some l →
      titleMatches item l = true →
      ((links.take i).all (fun l2 => !titleMatches item l2)) = true →
      findExactIdx links item = some i := by
  intro links
  induction links with
  | nil => intro i l h1 _ _; simp at h1
  | cons hd tl ih =>
    intro i l h1 h2 h3
    cases i with
    | zero =>
      simp at h1
      subst h1
      cases hhd : hd.title with
      | none => simp [titleMatches, hhd] at h2
      | some t =>
        simp [titleMatches, hhd] at h2
        simp [findExactIdx, hhd, h2]
    | succ j =>
      simp at h1
      rw [List.take_succ_cons, List.all_cons, Bool.and_eq_true] at h3
      obtain ⟨h3a, h3b⟩ := h3
      cases hhd : hd.title with
      | none => simp [findExactIdx, hhd, ih j l h1 h2 h3b]
      | some t =>
        simp [titleMatches, hhd] at h3a
        simp [findExactIdx, hhd, h3a, ih j l h1 h2 h3b]

theorem findExactIdx_eq_none (item : String) :
    ∀ links : List Link,
      (links.all (fun l => !titleMatches item l)) = true →
      findExactIdx links item = none := by
  intro links
  induction links with
  | nil => intro _; rfl
  | cons hd tl ih =>
    intro h
    rw [List.all_cons, Bool.and_eq_true] at h
    obtain ⟨h1, h2⟩ := h
    cases hhd : hd.title with
    | none => simp [findExactIdx, hhd, ih h2]
    | some t =>
      simp [titleMatches, hhd] at h1
      simp [findExactIdx, hhd, h1, ih h2]

theorem searchLoop_selects (env : Env) (item : String) (attempts fuel : Nat)
    (links : List Link) (i : Nat)
    (hs : env.search (attempts + 1) = SearchOutcome.results links)
    (hf : findExactIdx links item = some i) :
    searchLoop env item attempts (fuel + 1) =
      (SearchStep.selected i,
       [BAction.fill search_sel item, BAction.press search_sel ("Enter"),
        BAction.waitFor product_link_sel, BAction.queryAll product_link_sel,
        BAction.clickResult i]) := by
  have hne : links.isEmpty = false := by
    cases links with
    | nil => simp [findExactIdx] at hf
    | cons a b => rfl
  simp [searchLoop, hs, hne, hf]

theorem searchLoop_selects_first (env : Env) (item : String) (attempts fuel : Nat)
    (links : List Link)
    (hs : env.search (attempts + 1) = SearchOutcome.results links)
    (hne : links ≠ [])
    (hf : findExactIdx links item = none) :
    searchLoop env item attempts (fuel + 1) =
      (SearchStep.selected 0,
       [BAction.fill search_sel item, BAction.press search_sel ("Enter"),
        BAction.waitFor product_link_sel, BAction.queryAll product_link_sel,
        BAction.clickResult 0]) := by
  have hne2 : links.isEmpty = false := by
    cases links with
    | nil => exact absurd rfl hne
    | cons a b => rfl
  simp [searchLoop, hs, hne2, hf]

theorem searchLoop_all_fail (env : Env) (item : String)
    (h1 : searchFailed (env.search 1))
    (h2 : searchFailed (env.search 2))
    (h3 : searchFailed (env.search 3)) :
    ((searchLoop env item 0 max_attempts).1 =
        SearchStep.exit ("Error: Product search failed after multiple attempts") ∨
      (searchLoop env item 0 max_attempts).1 =
        SearchStep.exit ("Error: No products found matching the search criteria")) ∧
    (searchLoop env item 0 max_attempts).2.countP isSearchFill = 3 ∧
    BAction.close ∈ (searchLoop env item 0 max_attempts).2 ∧
    ∀ a ∈ (searchLoop env item 0 max_attempts).2, searchPhaseAction a = true := by
  rcases h1 with h1 | h1 <;> rcases h2 with h2 | h2 <;> rcases h3 with h3 | h3 <;>
    simp [searchLoop, max_attempts, h1, h2, h3, isSearchFill, searchPhaseAction,
      List.countP_cons, List.countP_nil]

theorem searchLoop_countP_le (env : Env) (item : String) :
    ∀ (fuel attempts : Nat),
      (searchLoop env item attempts fuel).2.countP isSearchFill ≤ fuel := by
  intro fuel
  induction fuel with
  | zero => intro attempts; simp [searchLoop, isSearchFill, List.countP_cons, List.countP_nil]
  | succ f ih =>
    intro attempts
    have key := ih (attempts + 1)
    rcases hs : env.search (attempts + 1) with _ | links
    · by_cases hm : attempts + 1 ≥ max_attempts
      · simp [searchLoop, hs, hm, isSearchFill, List.countP_cons, List.countP_nil]
      · simp [searchLoop, hs, hm, isSearchFill, List.countP_append, List.countP_cons,
          List.countP_nil]
        omega
    · by_cases he : links.isEmpty
      · by_cases hm : attempts + 1 ≥ max_attempts
        · simp [searchLoop, hs, he, hm, isSearchFill, List.countP_cons, List.countP_nil]
        · simp [searchLoop, hs, he, hm, isSearchFill, List.countP_append, List.countP_cons,
            List.countP_nil]
          omega
      · have hne : links ≠ [] := by
          cases links with
          | nil => simp at he
          | cons a b => simp
        rcases hf : findExactIdx links item with _ | i <;>
          simp [searchLoop, hs, hne, hf, isSearchFill, List.countP_cons, List.countP_nil]

theorem searchLoop_exit_close (env : Env) (item : String) :
    ∀ (fuel attempts : Nat) (msg : String),
      (searchLoop env item attempts fuel).1 = SearchStep.exit msg →
      BAction.close ∈ (searchLoop env item attempts fuel).2 := by
  intro fuel
  induction fuel with
  | zero => intro attempts msg _; simp [searchLoop]
  | succ f ih =>
    intro attempts msg h
    rcases hs : env.search (attempts + 1) with _ | links
    · by_cases hm : attempts + 1 ≥ max_attempts
      · simp [searchLoop, hs, hm]
      · simp [searchLoop, hs, hm] at h ⊢
        exact ih (attempts + 1) msg h
    · by_cases he : links = []
      · by_cases hm : attempts + 1 ≥ max_attempts
        · simp [searchLoop, hs, he, hm]
        · simp [searchLoop, hs, he, hm] at h ⊢
          exact ih (attempts + 1) msg h
      · rcases hf : findExactIdx links item with _ | i <;>
          simp [searchLoop, hs, he, hf] at h

theorem searchLoop_starts_with_search (env : Env) (item : String) (attempts fuel : Nat) :
    ∃ rest, (searchLoop env item attempts (fuel + 1)).2 =
      BAction.fill search_sel item :: BAction.press search_sel ("Enter") ::
        BAction.waitFor product_link_sel :: rest := by
  rcases hs : env.search (attempts + 1) with _ | links
  · by_cases hm : attempts + 1 ≥ max_attempts
    · exact ⟨[BAction.close], by simp [searchLoop, hs, hm]⟩
    · exact ⟨(searchLoop env item (attempts + 1) fuel).2, by simp [searchLoop, hs, hm]⟩
  · by_cases he : links = []
    · by_cases hm : attempts + 1 ≥ max_attempts
      · exact ⟨[BAction.queryAll product_link_sel, BAction.close],
          by simp [searchLoop, hs, he, hm]⟩
      · exact ⟨BAction.queryAll product_link_sel :: (searchLoop env item (attempts + 1) fuel).2,
          by simp [searchLoop, hs, he, hm]⟩
    · rcases hf : findExactIdx links item with _ | i
      · exact ⟨[BAction.queryAll product_link_sel, BAction.clickResult 0],
          by simp [searchLoop, hs, he, hf]⟩
      · exact ⟨[BAction.queryAll product_link_sel, BAction.clickResult i],
          by simp [searchLoop, hs, he, hf]⟩

theorem countP_searchFill_variantActs (category : String) (vd : VariantDetails) :
    (variantActs category vd).countP isSearchFill = 0 := by
  unfold variantActs
  split_ifs <;>
    simp [List.countP_append, List.countP_cons, List.countP_nil, isSearchFill,
      text_selector, search_sel]

theorem countP_searchFill_addToCart (env : Env) :
    (addToCartStep env).2.countP isSearchFill = 0 := by
  unfold addToCartStep
  split_ifs <;> simp [List.countP_cons, List.countP_nil, isSearchFill]

theorem countP_searchFill_popup (env : Env) :
    (popupActs env).countP isSearchFill = 0 := by
  unfold popupActs
  split_ifs <;> simp [List.countP_cons, List.countP_nil, isSearchFill]

theorem countP_searchFill_viewCart (env : Env) :
    (viewCartActs env).countP isSearchFill = 0 := by
  unfold viewCartActs
  split_ifs <;> simp [List.countP_cons, List.countP_nil, isSearchFill]

theorem countP_searchFill_checkout (env : Env) :
    (checkoutStep env).2.countP isSearchFill = 0 := by
  unfold checkoutStep
  split_ifs <;> simp [List.countP_cons, List.countP_nil, isSearchFill]

theorem countP_searchFill_fillChain3 (env : Env) (s1 s2 s3 v : String)
    (h1 : (s1 == search_sel) = false) (h2 : (s2 == search_sel) = false)
    (h3 : (s3 == search_sel) = false) :
    (fillChain3 env s1 s2 s3 v).2.countP isSearchFill = 0 := by
  unfold fillChain3
  split_ifs <;> simp [List.countP_cons, List.countP_nil, isSearchFill, h1, h2, h3]

theorem countP_searchFill_fillChains (env : Env) :
    ∀ cs : List (String × String × String × String),
      (∀ c ∈ cs, (c.1 == search_sel) = false ∧ (c.2.1 == search_sel) = false ∧
        (c.2.2.1 == search_sel) = false) →
      (fillChains env cs).2.countP isSearchFill = 0 := by
  intro cs
  induction cs with
  | nil => intro _; rfl
  | cons c rest ih =>
    intro h
    have hc := h c (List.mem_cons_self c rest)
    have hrest := ih (fun c2 hc2 => h c2 (List.mem_cons_of_mem c hc2))
    have hchain := countP_searchFill_fillChain3 env c.1 c.2.1 c.2.2.1 c.2.2.2 hc.1 hc.2.1 hc.2.2
    unfold fillChains
    cases hb : (fillChain3 env c.1 c.2.1 c.2.2.1 c.2.2.2).1 <;>
      simp [hb, List.countP_append, hchain, hrest]

theorem countP_searchFill_state (env : Env) (v : String) :
    (stateActs env v).countP isSearchFill = 0 := by
  unfold stateActs
  split_ifs <;> simp [List.countP_cons, List.countP_nil, isSearchFill, search_sel]

theorem countP_searchFill_zip (env : Env) (v : String) :
    (zipActs env v).countP isSearchFill = 0 := by
  unfold zipActs
  split_ifs <;> simp [List.countP_cons, List.countP_nil, isSearchFill, search_sel]

theorem countP_searchFill_country (env : Env) (v : String) :
    (countryActs env v).countP isSearchFill = 0 := by
  unfold countryActs
  split_ifs <;> simp [List.countP_cons, List.countP_nil, isSearchFill]

theorem countP_searchFill_shipping (env : Env) (p : Params) :
    (shippingActs env p).countP isSearchFill = 0 := by
  have hch := countP_searchFill_fillChains env
    [(("#firstName"), ("input[name=\"firstName\"]"), ("[placeholder=\"First Name\"]"), p.first_name),
     (("#lastName"), ("input[name=\"lastName\"]"), ("[placeholder=\"Last Name\"]"), p.last_name),
     (("#email"), ("input[name=\"email\"]"), ("[placeholder=\"Email\"]"), p.email),
     (("#phone"), ("input[name=\"phone\"]"), ("[placeholder=\"Phone\"]"), p.phone),
     (("#address"), ("input[name=\"address\"]"), ("[placeholder=\"Address\"]"), p.address),
     (("#city"), ("input[name=\"city\"]"), ("[placeholder=\"City\"]"), p.city)]
    (by intro c hc; fin_cases hc <;> exact ⟨rfl, rfl, rfl⟩)
  simp only [shippingActs]
  split_ifs <;>
    simp [List.countP_append, hch, countP_searchFill_state, countP_searchFill_zip,
      countP_searchFill_country]

theorem countP_searchFill_coupon (env : Env) (v : String) :
    (couponActs env v).countP isSearchFill = 0 := by
  unfold couponActs
  split_ifs <;>
    simp [List.countP_append, List.countP_cons, List.countP_nil, isSearchFill, search_sel]

theorem countP_searchFill_giftWrap (env : Env) (v : String) :
    (giftWrapActs env v).countP isSearchFill = 0 := by
  unfold giftWrapActs
  split_ifs <;> simp [List.countP_cons, List.countP_nil, isSearchFill, search_sel]

theorem countP_searchFill_clickChain (env : Env) :
    ∀ l : List String, (clickChain env l).countP isSearchFill = 0 := by
  intro l
  induction l with
  | nil => rfl
  | cons s rest ih =>
    unfold clickChain
    split_ifs <;> simp [List.countP_cons, List.countP_nil, isSearchFill, ih]

theorem countP_searchFill_expSplit (env : Env) (v : String) :
    (expSplitActs env v).countP isSearchFill = 0 := by
  unfold expSplitActs
  split <;> [skip; rfl]
  split_ifs <;> simp [List.countP_cons, List.countP_nil, isSearchFill, search_sel]

theorem countP_searchFill_cardExp (env : Env) (v : String) :
    (cardExpActs env v).countP isSearchFill = 0 := by
  unfold cardExpActs
  split_ifs <;>
    simp [List.countP_append, List.countP_cons, List.countP_nil, isSearchFill, search_sel,
      countP_searchFill_expSplit]

theorem countP_searchFill_billing (env : Env) (p : Params) :
    (billingActs env p).countP isSearchFill = 0 := by
  unfold billingActs
  split_ifs <;> simp [List.countP_cons, List.countP_nil, isSearchFill, search_sel]

theorem countP_searchFill_payment (env : Env) (p : Params) :
    (paymentActs env p).countP isSearchFill = 0 := by
  have h1 := countP_searchFill_fillChain3 env ("#cardNumber") ("input[name=\"cardNumber\"]")
    ("[placeholder=\"Card Number\"]") p.card_number rfl rfl rfl
  have h3 := countP_searchFill_fillChain3 env ("#cardCVV") ("input[name=\"cardCVV\"]")
    ("[placeholder=\"CVV\"]") p.card_cvv rfl rfl rfl
  simp only [paymentActs]
  split_ifs <;>
    simp [List.countP_append, h1, h3, countP_searchFill_cardExp, countP_searchFill_billing]

theorem countP_searchFill_placeOrder (env : Env) :
    (placeOrderStep env).2.countP isSearchFill = 0 := by
  unfold placeOrderStep
  split_ifs <;> simp [List.countP_cons, List.countP_nil, isSearchFill]

theorem countP_searchFill_confirmation (env : Env) :
    (confirmationStep env).2.countP isSearchFill = 0 := by
  unfold confirmationStep
  split_ifs <;> simp [List.countP_cons, List.countP_nil, isSearchFill]

theorem countP_searchFill_postSelection (env : Env) (category : String) (p : Params) :
    (postSelection env category p).2.countP isSearchFill = 0 := by
  have hlems := countP_searchFill_addToCart env
  simp only [postSelection]
  rcases hatc : (addToCartStep env).1 with _ | m1
  case some =>
    simp only [hatc]
    simp [List.countP_append, countP_searchFill_addToCart, countP_searchFill_variantActs]
  case none =>
  rcases hco : (checkoutStep env).1 with _ | m2
  case some =>
    simp only [hatc, hco]
    simp [List.countP_append, countP_searchFill_addToCart, countP_searchFill_variantActs,
      countP_searchFill_popup, countP_searchFill_viewCart, countP_searchFill_checkout]
  case none =>
  rcases hpo : (placeOrderStep env).1 with _ | m3 <;>
    simp only [hatc, hco, hpo] <;>
    simp [List.countP_append, countP_searchFill_addToCart, countP_searchFill_variantActs,
      countP_searchFill_popup, countP_searchFill_viewCart, countP_searchFill_checkout,
      countP_searchFill_shipping, countP_searchFill_clickChain, countP_searchFill_payment,
      countP_searchFill_placeOrder, countP_searchFill_confirmation, countP_searchFill_coupon,
      countP_searchFill_giftWrap, apply_ite (List.countP isSearchFill), isSearchFill,
      List.countP_cons, List.countP_nil]

theorem addToCartStep_fatal_close (env : Env) (m : String)
    (h : (addToCartStep env).1 = some m) :
    BAction.close ∈ (addToCartStep env).2 := by
  unfold addToCartStep at h ⊢
  split_ifs at h ⊢
  all_goals simp_all

theorem checkoutStep_fatal_close (env : Env) (m : String)
    (h : (checkoutStep env).1 = some m) :
    BAction.close ∈ (checkoutStep env).2 := by
  unfold checkoutStep at h ⊢
  split_ifs at h ⊢
  all_goals simp_all

theorem placeOrderStep_fatal_close (env : Env) (m : String)
    (h : (placeOrderStep env).1 = some m) :
    BAction.close ∈ (placeOrderStep env).2 := by
  unfold placeOrderStep at h ⊢
  split_ifs at h ⊢
  all_goals simp_all

theorem confirmationStep_close (env : Env) :
    BAction.close ∈ (confirmationStep env).2 := by
  unfold confirmationStep
  split_ifs <;> simp

theorem postSelection_close (env : Env) (category : String) (p : Params) :
    BAction.close ∈ (postSelection env category p).2 := by
  simp only [postSelection]
  rcases hatc : (addToCartStep env).1 with _ | m1
  case some =>
    simp only [hatc]
    simp [addToCartStep_fatal_close env m1 hatc]
  case none =>
  rcases hco : (checkoutStep env).1 with _ | m2
  case some =>
    simp only [hatc, hco]
    simp [checkoutStep_fatal_close env m2 hco]
  case none =>
  rcases hpo : (placeOrderStep env).1 with _ | m3
  case some =>
    simp only [hatc, hco, hpo]
    simp [placeOrderStep_fatal_close env m3 hpo]
  case none =>
    simp only [hatc, hco, hpo]
    simp [confirmationStep_close env]

theorem postSelection_no_confirmation (env : Env) (category : String) (p : Params)
    (hA : env.ok ("click") ("#addToCartButton") = true)
    (hCw : env.ok ("wait") ("a[href*=\"Checkout\"]") = true)
    (hCc : env.ok ("click") ("a[href*=\"Checkout\"]") = true)
    (hP : env.ok ("click") ("#placeOrderButton") = true)
    (hW1 : env.ok ("wait") (".order-confirmation") = false)
    (hW2 : env.ok ("wait") ("text=\"Thank you for your order\"") = false)
    (hW3 : env.ok ("wait") ("text=\"Order Confirmation\"") = false) :
    (postSelection env category p).1 =
      ("Order may have been placed, but confirmation was not detected") := by
  have hatc : (addToCartStep env).1 = none := by simp [addToCartStep, hA]
  have hco : (checkoutStep env).1 = none := by simp [checkoutStep, hCw, hCc]
  have hpo : (placeOrderStep env).1 = none := by simp [placeOrderStep, hP]
  have hcf : (confirmationStep env).1 =
      ("Order may have been placed, but confirmation was not detected") := by
    simp [confirmationStep, hW1, hW2, hW3]
  simp only [postSelection, hatc, hco, hpo]
  exact hcf

theorem execute_after_selection (env : Env) (website_url item_name category : String)
    (p : Params) (i : Nat) (acts : List BAction)
    (hgoto : env.gotoExc = none)
    (hsl : searchLoop env item_name 0 max_attempts = (SearchStep.selected i, acts)) :
    execute_purchase_flow env website_url item_name category p =
      ((postSelection env category p).1,
        BAction.goto website_url :: (acts ++ (postSelection env category p).2)) := by
  simp [execute_purchase_flow, hgoto, hsl]

/-- Claim C1 (corrected, counterexample): the empty input mapping misses
every required field, yet `_invoke` reports the invalid (empty) category and
not the missing fields, because the category check of line 27 runs before
`_extract_parameters`. -/
theorem missing_fields_masked_by_invalid_category :
    missingFields (mkParams {}) = required_fields ∧
    missingFields (mkParams {}) ≠ [] ∧
    (invoke env0 {}).messages = [Msg.text (invalid_category_msg (""))] ∧
    invalid_category_msg ("") ≠ ("Missing required fields: ") ++
      String.intercalate (", ") (missingFields (mkParams {})) := by
  refine ⟨by decide, by decide, by decide, by decide⟩

/-- Claim C1 (amended): for every input mapping with a valid category that is
missing at least one required field, `_invoke` yields exactly one error
message listing exactly the missing required fields (a field is missing when
absent or stripping to the empty string), and performs no browser action. -/
theorem missing_fields_reported (env : Env) (tp : ToolParams)
    (hcat : pyStrip (pyLower (tp.category.getD (""))) ∈ PRODUCT_CATEGORIES)
    (hmiss : missingFields (mkParams tp) ≠ []) :
    invoke env tp =
      { messages := [Msg.text (("Missing required fields: ") ++
          String.intercalate (", ") (missingFields (mkParams tp)))],
        actions := [] } ∧
    ∀ f : String, f ∈ missingFields (mkParams tp) ↔
      f ∈ required_fields ∧ paramsGet (mkParams tp) f = "" := by
  constructor
  · have hne : (missingFields (mkParams tp)).isEmpty = false := by
      cases hmf : missingFields (mkParams tp) with
      | nil => exact absurd hmf hmiss
      | cons a b => rfl
    simp [invoke, hcat, extract_parameters, hne]
  · intro f
    simp [missingFields, List.mem_filter]

/-- Claim C1 (amended) witness at a concrete input missing ten fields. -/
theorem missing_fields_reported_witness :
    invoke env0 tpC1 =
      { messages := [Msg.text (("Missing required fields: ") ++
          String.intercalate (", ") (missingFields (mkParams tpC1)))],
        actions := [] } :=
  (missing_fields_reported env0 tpC1 (by decide) (by decide)).1

/-- Claim C2: for every input whose category, lowercased and stripped, is not
one of the four valid categories, `_invoke` rejects before any browser
action, with the message naming the invalid category and the valid ones. -/
theorem invalid_category_rejected (env : Env) (tp : ToolParams)
    (h : pyStrip (pyLower (tp.category.getD (""))) ∉ PRODUCT_CATEGORIES) :
    invoke env tp =
      { messages := [Msg.text (invalid_category_msg (pyStrip (pyLower (tp.category.getD ("")))))],
        actions := [] } := by
  simp [invoke, h]

/-- Claim C2 witness: the category "Ball " normalizes to "ball", which is
rejected with no browser action. -/
theorem invalid_category_rejected_witness :
    invoke env0 tpC2 =
      { messages := [Msg.text (invalid_category_msg (pyStrip (pyLower (tpC2.category.getD ("")))))],
        actions := [] } :=
  invalid_category_rejected env0 tpC2 (by decide)

/-- Claim C3: for every terminal message the purchase-flow executor produces,
`_invoke` yields the start message and then the structured result whose
success flag is true exactly when the message does not start with "Error:",
carrying the message unchanged. -/
theorem structured_result_mirrors_message (env : Env) (tp : ToolParams) (p : Params)
    (hcat : pyStrip (pyLower (tp.category.getD (""))) ∈ PRODUCT_CATEGORIES)
    (hext : extract_parameters tp = Except.ok p) :
    (invoke env tp).messages =
      [Msg.text ("Starting purchase flow..."),
       Msg.json (result_json (execute_purchase_flow env
         (pyStrip (tp.website_url.getD ("https://www.tennisexpress.com/")))
         (pyStrip (pyLower (tp.item_name.getD (""))))
         (pyStrip (pyLower (tp.category.getD ("")))) p).1)] ∧
    ∀ m : String, (result_json m).message = m ∧
      ((result_json m).success = true ↔ pyStartsWith m ("Error:") = false) := by
  constructor
  · simp [invoke, hcat, hext]
  · intro m
    exact ⟨rfl, by simp [result_json]⟩

/-- Claim C3 witness at a fully populated input. -/
theorem structured_result_mirrors_message_witness :
    (invoke env0 tpFull).messages =
      [Msg.text ("Starting purchase flow..."),
       Msg.json (result_json (execute_purchase_flow env0
         (pyStrip (tpFull.website_url.getD ("https://www.tennisexpress.com/")))
         (pyStrip (pyLower (tpFull.item_name.getD (""))))
         (pyStrip (pyLower (tpFull.category.getD ("")))) (mkParams tpFull)).1)] :=
  (structured_result_mirrors_message env0 tpFull (mkParams tpFull) (by decide) rfl).1

theorem interactiveCartCheckoutStep_fatal_close (env : Env) (m : String)
    (h : (interactiveCartCheckoutStep env).1 = some m) :
    BAction.close ∈ (interactiveCartCheckoutStep env).2 := by
  unfold interactiveCartCheckoutStep at h ⊢
  split_ifs at h ⊢
  all_goals simp_all

theorem interactivePostSelection_returned_close (env : Env) (category : String) (p : Params)
    (msg : String)
    (h : (interactivePostSelection env category p).1 = IOutcome.returned msg) :
    BAction.close ∈ (interactivePostSelection env category p).2 := by
  simp only [interactivePostSelection] at h ⊢
  cases hA : env.ok ("click") ("#addToCartButton") with
  | false => simp [hA]
  | true =>
    simp only [hA, if_true] at h ⊢
    rcases hcc : (interactiveCartCheckoutStep env).1 with _ | m
    · simp only [hcc] at h ⊢
      repeat' split at h
      all_goals simp_all
    · simp only [hcc] at h ⊢
      have hk := interactiveCartCheckoutStep_fatal_close env m hcc
      simp_all

/-- Claim C4 (corrected, counterexample): in both variants, when an
unexpected exception is raised after the browser is launched, the outermost
handler returns the generic "Error:"-prefixed result and the browser is
never closed — for the programmatic variant at `page.goto` (lines 509-511),
and for the interactive variant at `page.goto` and at an unprotected
shipping fill (test2 lines 217-222, 291-293).  So the claim that the browser
is released on every exit path fails. -/
theorem browser_not_closed_on_unexpected_exception :
    ((execute_purchase_flow env_exc ("https://www.tennisexpress.com/") ("ball") ("other")
        (mkParams {})).1 = ("Error: boom") ∧
      pyStartsWith
        (execute_purchase_flow env_exc ("https://www.tennisexpress.com/") ("ball") ("other")
          (mkParams {})).1 ("Error:") = true ∧
      BAction.close ∉
        (execute_purchase_flow env_exc ("https://www.tennisexpress.com/") ("ball") ("other")
          (mkParams {})).2) ∧
    ((dify_headless_purchase_flow env_exc (fun _ => ("")) (fun _ => (""))
        ("https://www.tennisexpress.com/") ("ball") ("other") (mkParams tpFull) 3).1 =
        some (IOutcome.raised ("boom")) ∧
      pyStartsWith (IOutcome.raised ("boom")).message ("Error:") = true ∧
      BAction.close ∉
        (dify_headless_purchase_flow env_exc (fun _ => ("")) (fun _ => (""))
          ("https://www.tennisexpress.com/") ("ball") ("other") (mkParams tpFull) 3).2) ∧
    ((dify_headless_purchase_flow envLeak (fun _ => ("")) (fun _ => (""))
        ("https://www.tennisexpress.com/") ("ball") ("other") (mkParams tpFull) 3).1 =
        some (IOutcome.raised
          (("Timeout 30000ms exceeded waiting for selector ") ++ ("#firstName"))) ∧
      pyStartsWith
        (IOutcome.raised
          (("Timeout 30000ms exceeded waiting for selector ") ++ ("#firstName"))).message
        ("Error:") = true ∧
      BAction.close ∉
        (dify_headless_purchase_flow envLeak (fun _ => ("")) (fun _ => (""))
          ("https://www.tennisexpress.com/") ("ball") ("other") (mkParams tpFull) 3).2) := by
  refine ⟨⟨rfl, by decide, by decide⟩, ⟨by decide, by decide, by decide⟩,
    ⟨by decide, by decide, by decide⟩⟩

/-- Claim C4 (amended): in both variants, on every exit path not caused by an
unexpected exception — normal completion and every fatal-step early return —
the browser is closed before the function returns. -/
theorem browser_closed_on_non_exception_exits :
    (∀ (env : Env) (website_url item_name category : String) (p : Params),
      env.gotoExc = none →
      BAction.close ∈ (execute_purchase_flow env website_url item_name category p).2) ∧
    (∀ (env : Env) (selInput nameInput : Nat → String)
        (website_url item_name category : String) (p : Params) (fuel : Nat) (msg : String),
      env.gotoExc = none →
      (dify_headless_purchase_flow env selInput nameInput website_url item_name
        category p fuel).1 = some (IOutcome.returned msg) →
      BAction.close ∈ (dify_headless_purchase_flow env selInput nameInput website_url
        item_name category p fuel).2) := by
  constructor
  · intro env website_url item_name category p hgoto
    simp only [execute_purchase_flow, hgoto]
    cases hsr : (searchLoop env item_name 0 max_attempts).1 with
    | exit m =>
      simp only [hsr]
      simp [searchLoop_exit_close env item_name max_attempts 0 m hsr]
    | selected i =>
      simp only [hsr]
      simp [postSelection_close env category p]
  · intro env selInput nameInput website_url item_name category p fuel msg hgoto h
    simp only [dify_headless_purchase_flow, hgoto] at h ⊢
    cases hsr : (interactiveSearchLoop env selInput nameInput item_name 0 fuel).1 with
    | running => simp [hsr] at h
    | selected i =>
      simp only [hsr] at h ⊢
      simp only [Option.some.injEq] at h
      simp [interactivePostSelection_returned_close env category p msg h]

/-- Claim C4 (amended) witness: a programmatic run in which every step times
out still closes the browser, and an interactive run completing normally
closes the browser. -/
theorem browser_closed_on_non_exception_exits_witness :
    BAction.close ∈ (execute_purchase_flow env0 ("u") ("ball") ("other") (mkParams {})).2 ∧
    BAction.close ∈ (dify_headless_purchase_flow envC8 (fun _ => ("")) (fun _ => (""))
      ("u") ("ball") ("other") (mkParams tpFull) 3).2 :=
  ⟨browser_closed_on_non_exception_exits.1 env0 ("u") ("ball") ("other") (mkParams {}) rfl,
    browser_closed_on_non_exception_exits.2 envC8 (fun _ => ("")) (fun _ => (""))
      ("u") ("ball") ("other") (mkParams tpFull) 3
      ("Purchase flow executed successfully (please verify your order on the website).")
      rfl (by decide)⟩

/-- Claim C5: whenever the search results contain a link whose stripped title
equals the requested item name case-insensitively, the first such link is
selected — in the search loop, in the whole programmatic flow, and in the
interactive selection step — in preference to any non-matching links that
precede it. -/
theorem exact_match_selected :
    (∀ (env : Env) (item : String) (attempts fuel : Nat) (links : List Link) (i : Nat) (l : Link),
      env.search (attempts + 1) = SearchOutcome.results links →
      links[i]? = some l →
      titleMatches item l = true →
      ((links.take i).all (fun l2 => !titleMatches item l2)) = true →
      (searchLoop env item attempts (fuel + 1)).1 = SearchStep.selected i ∧
        BAction.clickResult i ∈ (searchLoop env item attempts (fuel + 1)).2) ∧
    (∀ (env : Env) (website_url item category : String) (p : Params)
        (links : List Link) (i : Nat) (l : Link),
      env.gotoExc = none →
      env.search 1 = SearchOutcome.results links →
      links[i]? = some l →
      titleMatches item l = true →
      ((links.take i).all (fun l2 => !titleMatches item l2)) = true →
      BAction.clickResult i ∈ (execute_purchase_flow env website_url item category p).2) ∧
    (∀ (links : List Link) (item raw : String) (i : Nat) (l : Link),
      links[i]? = some l →
      titleMatches item l = true →
      ((links.take i).all (fun l2 => !titleMatches item l2)) = true →
      (interactive_select_step links item raw).action = SelectAction.selected i ∧
        (interactive_select_step links item raw).printed = []) := by
  refine ⟨?_, ?_, ?_⟩
  · intro env item attempts fuel links i l h1 h2 h3 h4
    have hf := findExactIdx_eq_some item links i l h2 h3 h4
    rw [searchLoop_selects env item attempts fuel links i h1 hf]
    simp
  · intro env website_url item category p links i l hgoto h1 h2 h3 h4
    have hf := findExactIdx_eq_some item links i l h2 h3 h4
    have hsl : searchLoop env item 0 max_attempts =
        (SearchStep.selected i,
         [BAction.fill search_sel item, BAction.press search_sel ("Enter"),
          BAction.waitFor product_link_sel, BAction.queryAll product_link_sel,
          BAction.clickResult i]) :=
      searchLoop_selects env item 0 _ links i h1 hf
    rw [execute_after_selection env website_url item category p i _ hgoto hsl]
    simp
  · intro links item raw i l h2 h3 h4
    have hf := findExactIdx_eq_some item links i l h2 h3 h4
    simp [interactive_select_step, hf]

/-- Claim C5 witness: the exact match at index 1 is selected over the
non-matching first result, in both variants. -/
theorem exact_match_selected_witness :
    BAction.clickResult 1 ∈
      (execute_purchase_flow env5 ("u") ("ball") ("other") (mkParams {})).2 ∧
    (interactive_select_step links5 ("ball") ("junk")).action = SelectAction.selected 1 :=
  ⟨exact_match_selected.2.1 env5 ("u") ("ball") ("other") (mkParams {})
      links5 1 { title := some (" Ball ") } rfl rfl (by decide) (by decide) (by decide),
    (exact_match_selected.2.2 links5 ("ball") ("junk") 1 { title := some (" Ball ") }
      (by decide) (by decide) (by decide)).1⟩

/-- Claim C6: on a non-empty result set with no case-insensitive exact
match, the programmatic flow clicks the first result unconditionally (search
loop and whole flow), while the interactive flow prints every result with
1-based numbering, selects the link at a valid supplied 1-based index, asks
for a new search on empty input, and re-prompts without selecting on
non-numeric or out-of-range input. -/
theorem no_exact_match_fallback :
    (∀ (env : Env) (item : String) (attempts fuel : Nat) (links : List Link),
      env.search (attempts + 1) = SearchOutcome.results links →
      links ≠ [] →
      (links.all (fun l => !titleMatches item l)) = true →
      (searchLoop env item attempts (fuel + 1)).1 = SearchStep.selected 0 ∧
        BAction.clickResult 0 ∈ (searchLoop env item attempts (fuel + 1)).2) ∧
    (∀ (env : Env) (website_url item category : String) (p : Params) (links : List Link),
      env.gotoExc = none →
      env.search 1 = SearchOutcome.results links →
      links ≠ [] →
      (links.all (fun l => !titleMatches item l)) = true →
      BAction.clickResult 0 ∈ (execute_purchase_flow env website_url item category p).2) ∧
    (∀ (links : List Link) (item raw : String),
      (links.all (fun l => !titleMatches item l)) = true →
      (interactive_select_step links item raw).printed = printedOptions links ∧
      (printedOptions links).length = links.length ∧
      ∀ (k : Nat) (l : Link), links[k]? = some l →
        (printedOptions links)[k]? = some (match l.title with
          | some t => s!"{k + 1}. " ++ pyStrip t
          | none => s!"{k + 1}. Product {k + 1}")) ∧
    (∀ (links : List Link) (item raw : String) (n : Nat),
      (links.all (fun l => !titleMatches item l)) = true →
      raw ≠ "" → pyStrip raw ≠ "" →
      pyInt (pyStrip raw) = some (n : Int) →
      1 ≤ n → n ≤ links.length →
      (interactive_select_step links item raw).action = SelectAction.selected (n - 1)) ∧
    (∀ (links : List Link) (item : String),
      (links.all (fun l => !titleMatches item l)) = true →
      (interactive_select_step links item ("")).action = SelectAction.newSearch) ∧
    (∀ (links : List Link) (item raw : String),
      (links.all (fun l => !titleMatches item l)) = true →
      raw ≠ "" → pyStrip raw ≠ "" →
      pyInt (pyStrip raw) = none →
      (interactive_select_step links item raw).action = SelectAction.invalidInput) ∧
    (∀ (links : List Link) (item raw : String) (z : Int),
      (links.all (fun l => !titleMatches item l)) = true →
      raw ≠ "" → pyStrip raw ≠ "" →
      pyInt (pyStrip raw) = some z →
      (z - 1 < 0 ∨ z - 1 ≥ (links.length : Int)) →
      (interactive_select_step links item raw).action = SelectAction.invalidSelection) := by
  refine ⟨?_, ?_, ?_, ?_, ?_, ?_, ?_⟩
  · intro env item attempts fuel links h1 hne hall
    have hf := findExactIdx_eq_none item links hall
    rw [searchLoop_selects_first env item attempts fuel links h1 hne hf]
    simp
  · intro env website_url item category p links hgoto h1 hne hall
    have hf := findExactIdx_eq_none item links hall
    have hsl : searchLoop env item 0 max_attempts =
        (SearchStep.selected 0,
         [BAction.fill search_sel item, BAction.press search_sel ("Enter"),
          BAction.waitFor product_link_sel, BAction.queryAll product_link_sel,
          BAction.clickResult 0]) :=
      searchLoop_selects_first env item 0 _ links h1 hne hf
    rw [execute_after_selection env website_url item category p 0 _ hgoto hsl]
    simp
  · intro links item raw hall
    have hf := findExactIdx_eq_none item links hall
    refine ⟨?_, by simp [printedOptions], ?_⟩
    · simp only [interactive_select_step, hf]
      split
      · rfl
      · split
        · rfl
        · split <;> rfl
    intro k l hk
    simp only [printedOptions, List.getElem?_map, List.getElem?_enum, hk]
    rfl
  · intro links item raw n hall hraw hstrip hint h1 h2
    have hf := findExactIdx_eq_none item links hall
    have hbeq : (raw == "") = false := by simpa using hraw
    have hs2 : (pyStrip raw == "") = false := by simpa using hstrip
    have htn : ((n : Int) - 1).toNat = n - 1 := by omega
    simp [interactive_select_step, hf, get_user_input, hbeq, truthy, hs2, hint, htn]
    rw [if_neg (by omega)]
  · intro links item hall
    have hf := findExactIdx_eq_none item links hall
    simp [interactive_select_step, hf, get_user_input, truthy]
  · intro links item raw hall hraw hstrip hint
    have hf := findExactIdx_eq_none item links hall
    have hbeq : (raw == "") = false := by simpa using hraw
    have hs2 : (pyStrip raw == "") = false := by simpa using hstrip
    simp [interactive_select_step, hf, get_user_input, hbeq, truthy, hs2, hint]
  · intro links item raw z hall hraw hstrip hint hout
    have hf := findExactIdx_eq_none item links hall
    have hbeq : (raw == "") = false := by simpa using hraw
    have hs2 : (pyStrip raw == "") = false := by simpa using hstrip
    simp [interactive_select_step, hf, get_user_input, hbeq, truthy, hs2, hint]
    rw [if_pos (by omega)]

/-- Claim C6 witness: with no exact match for "ball", the programmatic flow
clicks result 0; the interactive step prints both numbered options, selects
index 2 on input "2", and re-prompts on "x" and "7". -/
theorem no_exact_match_fallback_witness :
    BAction.clickResult 0 ∈
      (execute_purchase_flow env6 ("u") ("ball") ("other") (mkParams {})).2 ∧
    (interactive_select_step links6 ("ball") ("2")).printed = printedOptions links6 ∧
    (printedOptions links6).length = links6.length ∧
    (interactive_select_step links6 ("ball") ("2")).action = SelectAction.selected 1 ∧
    (interactive_select_step links6 ("ball") ("x")).action = SelectAction.invalidInput ∧
    (interactive_select_step links6 ("ball") ("7")).action = SelectAction.invalidSelection ∧
    (interactive_select_step links6 ("ball") ("")).action = SelectAction.newSearch :=
  ⟨no_exact_match_fallback.2.1 env6 ("u") ("ball") ("other") (mkParams {}) links6
      rfl rfl (by decide) (by decide),
    (no_exact_match_fallback.2.2.1 links6 ("ball") ("2") (by decide)).1,
    (no_exact_match_fallback.2.2.1 links6 ("ball") ("2") (by decide)).2.1,
    no_exact_match_fallback.2.2.2.1 links6 ("ball") ("2") 2 (by decide)
      (by decide) (by decide) (by decide) (by decide) (by decide),
    no_exact_match_fallback.2.2.2.2.2.1 links6 ("ball") ("x") (by decide)
      (by decide) (by decide) (by decide),
    no_exact_match_fallback.2.2.2.2.2.2 links6 ("ball") ("7") 7 (by decide)
      (by decide) (by decide) (by decide) (by decide),
    no_exact_match_fallback.2.2.2.2.1 links6 ("ball") (by decide)⟩

theorem execute_after_exit (env : Env) (website_url item_name category : String)
    (p : Params) (msg : String)
    (hgoto : env.gotoExc = none)
    (h : (searchLoop env item_name 0 max_attempts).1 = SearchStep.exit msg) :
    execute_purchase_flow env website_url item_name category p =
      (msg, BAction.goto website_url :: (searchLoop env item_name 0 max_attempts).2) := by
  simp only [execute_purchase_flow, hgoto, h]

/-- Claim C7: the programmatic flow fills the search box at most 3 times in
every run; and when all three attempts fail, it returns one of the two
"Error:"-prefixed search-failure messages, closes the browser, and performs
no action beyond the search phase (no result click, no later purchase
step). -/
theorem search_retry_bounded :
    (∀ (env : Env) (website_url item category : String) (p : Params),
      (execute_purchase_flow env website_url item category p).2.countP isSearchFill ≤ 3) ∧
    (∀ (env : Env) (website_url item category : String) (p : Params),
      env.gotoExc = none →
      searchFailed (env.search 1) → searchFailed (env.search 2) → searchFailed (env.search 3) →
      ((execute_purchase_flow env website_url item category p).1 =
          ("Error: Product search failed after multiple attempts") ∨
        (execute_purchase_flow env website_url item category p).1 =
          ("Error: No products found matching the search criteria")) ∧
      pyStartsWith (execute_purchase_flow env website_url item category p).1 ("Error:") = true ∧
      (execute_purchase_flow env website_url item category p).2.countP isSearchFill = 3 ∧
      BAction.close ∈ (execute_purchase_flow env website_url item category p).2 ∧
      ∀ a ∈ (execute_purchase_flow env website_url item category p).2,
        searchPhaseAction a = true) := by
  constructor
  · intro env website_url item category p
    rcases hg : env.gotoExc with _ | m
    · have hloop := searchLoop_countP_le env item max_attempts 0
      simp only [execute_purchase_flow, hg]
      cases hsr : (searchLoop env item 0 max_attempts).1 with
      | exit msg =>
        simp only [hsr]
        simpa [List.countP_cons, isSearchFill, max_attempts] using hloop
      | selected i =>
        simp only [hsr]
        have hpost := countP_searchFill_postSelection env category p
        simp [List.countP_cons, List.countP_append, isSearchFill, hpost]
        simpa [max_attempts] using hloop
    · simp [execute_purchase_flow, hg, List.countP_cons, isSearchFill]
  · intro env website_url item category p hgoto h1 h2 h3
    obtain ⟨hmsg, hcount, hclose, hphase⟩ := searchLoop_all_fail env item h1 h2 h3
    have hgen : ∀ m : String,
        (searchLoop env item 0 max_attempts).1 = SearchStep.exit m →
        pyStartsWith m ("Error:") = true →
        ((execute_purchase_flow env website_url item category p).1 = m) ∧
        pyStartsWith (execute_purchase_flow env website_url item category p).1 ("Error:") = true ∧
        (execute_purchase_flow env website_url item category p).2.countP isSearchFill = 3 ∧
        BAction.close ∈ (execute_purchase_flow env website_url item category p).2 ∧
        ∀ a ∈ (execute_purchase_flow env website_url item category p).2,
          searchPhaseAction a = true := by
      intro m hm hpre
      rw [execute_after_exit env website_url item category p m hgoto hm]
      refine ⟨rfl, hpre, ?_, ?_, ?_⟩
      · simp [List.countP_cons, isSearchFill, hcount]
      · simp [hclose]
      · intro a ha
        rcases List.mem_cons.mp ha with rfl | ha
        · rfl
        · exact hphase a ha
    rcases hmsg with hmsg | hmsg
    · obtain ⟨he, rest⟩ := hgen _ hmsg (by decide)
      exact ⟨Or.inl he, rest⟩
    · obtain ⟨he, rest⟩ := hgen _ hmsg (by decide)
      exact ⟨Or.inr he, rest⟩

/-- Claim C7 witness: on an environment where every search attempt times
out, the flow makes exactly 3 attempts, errors out and closes the browser. -/
theorem search_retry_bounded_witness :
    (execute_purchase_flow env0 ("u") ("ball") ("other") (mkParams {})).2.countP
        isSearchFill ≤ 3 ∧
    ((execute_purchase_flow env0 ("u") ("ball") ("other") (mkParams {})).1 =
        ("Error: Product search failed after multiple attempts") ∨
      (execute_purchase_flow env0 ("u") ("ball") ("other") (mkParams {})).1 =
        ("Error: No products found matching the search criteria")) ∧
    (execute_purchase_flow env0 ("u") ("ball") ("other") (mkParams {})).2.countP
        isSearchFill = 3 ∧
    BAction.close ∈ (execute_purchase_flow env0 ("u") ("ball") ("other") (mkParams {})).2 :=
  ⟨search_retry_bounded.1 env0 ("u") ("ball") ("other") (mkParams {}),
    (search_retry_bounded.2 env0 ("u") ("ball") ("other") (mkParams {}) rfl
      (Or.inl rfl) (Or.inl rfl) (Or.inl rfl)).1,
    (search_retry_bounded.2 env0 ("u") ("ball") ("other") (mkParams {}) rfl
      (Or.inl rfl) (Or.inl rfl) (Or.inl rfl)).2.2.1,
    (search_retry_bounded.2 env0 ("u") ("ball") ("other") (mkParams {}) rfl
      (Or.inl rfl) (Or.inl rfl) (Or.inl rfl)).2.2.2.1⟩

/-- Claim C8: when the order is placed (primary place-order button works)
but none of the three confirmation waits succeeds, the flow returns the
ambiguous message, which is not "Error:"-prefixed, so the structured result
reports success. -/
theorem confirmation_absence_non_error (env : Env)
    (website_url item category : String) (p : Params) (links : List Link)
    (hgoto : env.gotoExc = none)
    (hs : env.search 1 = SearchOutcome.results links)
    (hne : links ≠ [])
    (hA : env.ok ("click") ("#addToCartButton") = true)
    (hCw : env.ok ("wait") ("a[href*=\"Checkout\"]") = true)
    (hCc : env.ok ("click") ("a[href*=\"Checkout\"]") = true)
    (hP : env.ok ("click") ("#placeOrderButton") = true)
    (hW1 : env.ok ("wait") (".order-confirmation") = false)
    (hW2 : env.ok ("wait") ("text=\"Thank you for your order\"") = false)
    (hW3 : env.ok ("wait") ("text=\"Order Confirmation\"") = false) :
    (execute_purchase_flow env website_url item category p).1 =
      ("Order may have been placed, but confirmation was not detected") ∧
    pyStartsWith (execute_purchase_flow env website_url item category p).1 ("Error:") = false ∧
    (result_json (execute_purchase_flow env website_url item category p).1).success = true := by
  have hmsg := postSelection_no_confirmation env category p hA hCw hCc hP hW1 hW2 hW3
  have hsel : ∃ i acts, searchLoop env item 0 max_attempts = (SearchStep.selected i, acts) := by
    rcases hf : findExactIdx links item with _ | i
    · exact ⟨0, _, searchLoop_selects_first env item 0 _ links hs hne hf⟩
    · exact ⟨i, _, searchLoop_selects env item 0 _ links i hs hf⟩
  obtain ⟨i, acts, hsl⟩ := hsel
  rw [execute_after_selection env website_url item category p i acts hgoto hsl]
  refine ⟨hmsg, ?_, ?_⟩
  · rw [show ((postSelection env category p).1,
        BAction.goto website_url :: (acts ++ (postSelection env category p).2)).1 =
        (postSelection env category p).1 from rfl, hmsg]
    decide
  · rw [show ((postSelection env category p).1,
        BAction.goto website_url :: (acts ++ (postSelection env category p).2)).1 =
        (postSelection env category p).1 from rfl, hmsg]
    decide

/-- Claim C8 witness: a concrete run on which everything succeeds except
confirmation detection. -/
theorem confirmation_absence_non_error_witness :
    (execute_purchase_flow envC8 ("u") ("ball") ("other") (mkParams tpFull)).1 =
      ("Order may have been placed, but confirmation was not detected") ∧
    pyStartsWith (execute_purchase_flow envC8 ("u") ("ball") ("other")
      (mkParams tpFull)).1 ("Error:") = false ∧
    (result_json (execute_purchase_flow envC8 ("u") ("ball") ("other")
      (mkParams tpFull)).1).success = true :=
  confirmation_absence_non_error envC8 ("u") ("ball") ("other") (mkParams tpFull)
    [{ title := some ("ball") }] rfl rfl (by decide) rfl rfl rfl rfl rfl rfl rfl

/-- Claim C9 (code-bug evidence): for a garment/shoes purchase with a size
and a color supplied, the programmatic variant attempts both the size click
and the color click, but the interactive variant attempts only the size
click and never touches the collected color (test2 lines 178-182). -/
theorem interactive_variant_skips_color :
    variantActs ("shoes") vdC9 =
      [BAction.click (text_selector ("9")), BAction.click (text_selector ("red"))] ∧
    interactive_variant_actions ("shoes") vdC9 = [BAction.click (text_selector ("9"))] ∧
    BAction.click (text_selector ("red")) ∉ interactive_variant_actions ("shoes") vdC9 ∧
    variantActs ("garment") vdC9 =
      [BAction.click (text_selector ("9")), BAction.click (text_selector ("red"))] ∧
    interactive_variant_actions ("garment") vdC9 = [BAction.click (text_selector ("9"))] := by
  refine ⟨by decide, by decide, by decide, by decide, by decide⟩

theorem searchLoop_starts_pos (env : Env) (item : String) (attempts fuel : Nat)
    (hf : fuel ≠ 0) :
    ∃ rest, (searchLoop env item attempts fuel).2 =
      BAction.fill search_sel item :: BAction.press search_sel ("Enter") ::
        BAction.waitFor product_link_sel :: rest := by
  cases fuel with
  | zero => exact absurd rfl hf
  | succ f => exact searchLoop_starts_with_search env item attempts f

theorem execute_actions_goto_search (env : Env) (website_url item category : String)
    (p : Params) (hgoto : env.gotoExc = none) :
    ∃ tail, (execute_purchase_flow env website_url item category p).2 =
      BAction.goto website_url :: ((searchLoop env item 0 max_attempts).2 ++ tail) := by
  simp only [execute_purchase_flow, hgoto]
  cases hsr : (searchLoop env item 0 max_attempts).1 with
  | exit m => exact ⟨[], by simp [hsr]⟩
  | selected i => exact ⟨(postSelection env category p).2, by simp [hsr]⟩

/-- Claim C10: item_name is not a required field, so an input with a valid
category, all required fields present, and a blank or absent item name
passes validation; the flow launches the browser and submits the empty
string as the search query. -/
theorem blank_item_name_accepted (env : Env) (tp : ToolParams)
    (hcat : pyStrip (pyLower (tp.category.getD (""))) ∈ PRODUCT_CATEGORIES)
    (hmiss : missingFields (mkParams tp) = [])
    (hitem : pyStrip (pyLower (tp.item_name.getD (""))) = "")
    (hgoto : env.gotoExc = none) :
    ("item_name") ∉ required_fields ∧
    ∃ rest, (invoke env tp).actions =
      BAction.goto (pyStrip (tp.website_url.getD ("https://www.tennisexpress.com/"))) ::
        BAction.fill search_sel ("") :: rest := by
  constructor
  · decide
  · have hext : extract_parameters tp = Except.ok (mkParams tp) := by
      simp [extract_parameters, hmiss]
    have hinv : (invoke env tp).actions =
        (execute_purchase_flow env
          (pyStrip (tp.website_url.getD ("https://www.tennisexpress.com/")))
          (pyStrip (pyLower (tp.item_name.getD (""))))
          (pyStrip (pyLower (tp.category.getD ("")))) (mkParams tp)).2 := by
      simp [invoke, hcat, hext]
    obtain ⟨tail, htail⟩ := execute_actions_goto_search env
      (pyStrip (tp.website_url.getD ("https://www.tennisexpress.com/")))
      (pyStrip (pyLower (tp.item_name.getD (""))))
      (pyStrip (pyLower (tp.category.getD ("")))) (mkParams tp) hgoto
    obtain ⟨rest, hrest⟩ := searchLoop_starts_pos env
      (pyStrip (pyLower (tp.item_name.getD ("")))) 0 max_attempts (by decide)
    refine ⟨BAction.press search_sel ("Enter") :: BAction.waitFor product_link_sel ::
      (rest ++ tail), ?_⟩
    rw [hinv, htail, hrest, hitem]
    simp

/-- Claim C10 witness: a fully populated input with no item name launches the
browser and searches for the empty string. -/
theorem blank_item_name_accepted_witness :
    ("item_name") ∉ required_fields ∧
    ∃ rest, (invoke env0 tpBlankItem).actions =
      BAction.goto (pyStrip (tpBlankItem.website_url.getD ("https://www.tennisexpress.com/"))) ::
        BAction.fill search_sel ("") :: rest :=
  blank_item_name_accepted env0 tpBlankItem (by decide) (by decide) (by decide) rfl
